import Mathlib

/-!
# Lost in Space: game-state update and collision resolution

A shallow embedding of the update core of the game (collision.cpp,
kill_streaks.cpp, explosion.cpp, enemy.cpp, power_up.cpp, shooting.cpp,
player.cpp, lost_in_space.cpp, game_data.cpp) and theorems about it.

Modelling conventions.

* C++ `int` fields are `Int`; signed overflow is undefined behaviour in C++ and
  lies outside the model.  `unsigned int` fields are `Nat` below `2 ^ 32`, and
  unsigned subtraction is written with an explicit `% 2 ^ 32`.
* `float` and `double` fields are exact rationals (`ℚ`), and arithmetic on
  them is exact.  The one place where the source stores a `double` result in a
  `float` local and compares it, `circle_collision`, rounds with `to_float`.
* `std::vector` is `List`; indexing or erasing out of range is undefined
  behaviour in C++ and makes the modelled function return `none`.
* `std::map<enemy_kind, float>` is a function into `Option`; `operator[]`
  on an absent key inserts the value `0.0`.
* Answers of the game engine (timer readings, loaded bitmaps) are collected in
  `engine`; random draws are explicit arguments.  Audio calls
  (`play_sound_effect`, `play_music`, `stop_music`) do not touch `game_data`
  and are left out.
* Engine functions on sprites (`update_sprite`, `sprite_collision_circle`,
  `center_point`) and the trigonometric functions of the C library are left
  uninterpreted in `library`.
* Distances are compared through their squares; theorems that speak of a
  distance take the real square root of the squared distance.
* `sprite_width`, `sprite_height`, `bitmap_width` and `bitmap_height` return
  `int`; a quotient of two `int` values is truncated towards zero.
-/

namespace LostInSpace

/-! ## Data model -/

/-- A loaded bitmap resource, known to the core only through its size in
pixels (`bitmap_width` and `bitmap_height` return `int`). -/
structure bitmap where
  width : Int
  height : Int
  deriving DecidableEq, Inhabited

/-- Engine struct `point_2d`. -/
structure point_2d where
  x : ℚ
  y : ℚ
  deriving DecidableEq, Inhabited

/-- Engine struct `circle`. -/
structure circle where
  center : point_2d
  radius : ℚ
  deriving DecidableEq, Inhabited

/-- An engine sprite: position, rotation, velocity and the size of its bitmap.
The engine calls `sprite_width` and `sprite_height` return `int`. -/
structure sprite where
  x : ℚ
  y : ℚ
  rotation : ℚ
  dx : ℚ
  dy : ℚ
  width : Int
  height : Int
  deriving DecidableEq, Inhabited

/-- The answers the engine gives during one modelled call. -/
structure engine where
  bitmap_named : String → bitmap
  current_ticks : Nat
  timer_ticks : Nat

/-- Engine call `create_sprite(bitmap)`: a sprite at the origin, at rest. -/
def create_sprite (b : bitmap) : sprite :=
  { x := 0, y := 0, rotation := 0, dx := 0, dy := 0, width := b.width, height := b.height }

/-- Engine call `sprite_set_position`. -/
def sprite_set_position (s : sprite) (p : point_2d) : sprite :=
  { s with x := p.x, y := p.y }

/-- Engine call `sprite_set_rotation`. -/
def sprite_set_rotation (s : sprite) (r : ℚ) : sprite :=
  { s with rotation := r }

/-- enemy.h `enum class enemy_kind`. -/
inductive enemy_kind where
  | ENEMY_TYPE1
  | ENEMY_TYPE2
  | ENEMY_TYPE3
  | ENEMY_BOSS
  deriving DecidableEq, Inhabited

/-- enemy.h `enum damage_type`. -/
inductive damage_type where
  | DAMAGE_TYPE1
  | DAMAGE_TYPE2
  | DAMAGE_TYPE3
  | DAMAGE_BOSS
  deriving DecidableEq, Inhabited

/-- enemy.h `enum enemy_state`. -/
inductive enemy_state where
  | IDLE
  | PATROL
  | CHASE
  | ATTACK
  deriving DecidableEq, Inhabited

/-- shooting.h `struct projectile_data`. -/
structure projectile_data where
  shape : circle
  angle : ℚ
  speed : ℚ
  owner : Int
  deriving DecidableEq, Inhabited

/-- enemy.h `struct enemy_data`. -/
structure enemy_data where
  enemy_sprite : sprite
  kind : enemy_kind
  last_projectile_tick : Int
  health : Int
  speed : ℚ
  rotation_speed : ℚ
  state : enemy_state
  attack_start_time : ℚ
  projectiles : List projectile_data
  shape : circle
  type : damage_type
  damage_value : ℚ
  original_damage : ℚ
  distance_to_player : ℚ
  angle_to_player : ℚ
  rotation_diff : ℚ
  new_x : ℚ
  new_y : ℚ
  adjusted_speed : ℚ
  deriving DecidableEq, Inhabited

/-- player.h `enum ship_kind`. -/
inductive ship_kind where
  | AQUARII
  | GLIESE
  | PEGASI
  deriving DecidableEq, Inhabited

/-- player.h `struct player_data`. -/
structure player_data where
  player_sprite : sprite
  hud_sprite : sprite
  kind : ship_kind
  current_rotation : ℚ
  fuel_pct : ℚ
  shield_pct : ℚ
  rocket_count : Int
  has_moved : Bool
  time_remaining : Int
  kill_count : Int
  damage : Int
  original_ammo_state : Int
  player_speed : ℚ
  player_boost : ℚ
  player_ultra_boost : ℚ
  deriving DecidableEq, Inhabited

/-- explosion.h `struct explosion_data`. -/
structure explosion_data where
  explosion_sprite : sprite
  explosion_bitmap : bitmap
  start_time : ℚ
  should_remove : Bool
  frame_index : Int
  frame_duration : ℚ
  deriving DecidableEq, Inhabited

/-- power_up.h `enum power_up_kind`, an unscoped enumeration held as its
integer value: `random_power_up_kind` casts the values 0 to 5 to it, so it
also holds values that are not enumerators. -/
abbrev power_up_kind := Int

/-- Enumerator `SHIELD` of `power_up_kind`. -/
def SHIELD : power_up_kind := 0

/-- Enumerator `FUEL` of `power_up_kind`. -/
def FUEL : power_up_kind := 1

/-- Enumerator `ROCKET` of `power_up_kind`. -/
def ROCKET : power_up_kind := 2

/-- Enumerator `TIME` of `power_up_kind`. -/
def TIME : power_up_kind := 3

/-- power_up.h `struct point` (integer coordinates). -/
structure point where
  x : Int
  y : Int
  deriving DecidableEq, Inhabited

/-- power_up.h `struct power_up_data`. -/
structure power_up_data where
  kind : power_up_kind
  power_up_sprite : sprite
  is_visible : Bool
  position : point
  velocity : point
  deriving DecidableEq, Inhabited

/-- planets.h `enum planet_kind`. -/
inductive planet_kind where
  | MERCURY
  | VENUS
  | EARTH
  | MARS
  | JUPITER
  | SATURN
  | URANUS
  | NEPTUNE
  | PLUTO
  deriving DecidableEq, Inhabited

/-- planets.h `struct planet_data`. -/
structure planet_data where
  planet_sprite : sprite
  kind : planet_kind
  deriving DecidableEq, Inhabited

/-- game_data.h `enum game_state`. -/
inductive game_state where
  | START_MENU
  | IN_PROGRESS
  | GAME_OVER
  deriving DecidableEq, Inhabited

/-- The type of `game_data::original_damage_values`, a
`std::map<enemy_kind, float>`: `none` is an absent key. -/
abbrev damage_map := enemy_kind → Option ℚ

/-- Assignment `m[k] = v` on the map. -/
def damage_map.assign (m : damage_map) (k : enemy_kind) (v : ℚ) : damage_map :=
  fun k' => if k' = k then some v else m k'

/-- Read `m[k]` on the map: the stored value, or `0.0` inserted under an
absent key and returned. -/
def damage_map.index (m : damage_map) (k : enemy_kind) : ℚ × damage_map :=
  match m k with
  | some v => (v, m)
  | none => (0, m.assign k 0)

/-- game_data.h `struct game_data` (the timer handle is read through
`engine.timer_ticks`). -/
structure game_data where
  player : player_data
  planets : List planet_data
  enemies : List enemy_data
  projectiles : List projectile_data
  power_ups : List power_up_data
  explosions : List explosion_data
  original_damage_values : damage_map
  map_width : Int
  map_height : Int
  is_kill_streak_active : Bool
  last_kill_streak_tick : ℚ
  state : game_state
  intro_music_started : Bool
  last_enemy_spawn_tick : Nat
  enemy_spawn_interval : Nat
  last_power_up_spawn_tick : Nat
  power_up_spawn_interval : Nat
  last_second_tick : Nat

/-! ## explosion.cpp -/

/-- explosion.cpp `add_explosion`: a fresh explosion at `(x, y)` is pushed to
the back of `game.explosions`. -/
def add_explosion (eng : engine) (game : game_data) (x y : ℚ) : game_data :=
  let explosion : explosion_data :=
    { explosion_sprite := sprite_set_position (create_sprite (eng.bitmap_named "explode")) { x := x, y := y }
      explosion_bitmap := eng.bitmap_named "explode"
      start_time := eng.current_ticks
      should_remove := false
      frame_index := 0
      frame_duration := 300 }
  { game with explosions := game.explosions ++ [explosion] }

/-! ## kill_streaks.cpp -/

/-- kill_streaks.h `enum class KillStreakSound`. -/
inductive KillStreakSound where
  | FIRST_BLOOD
  | DOUBLE_KILL
  | TRIPLE_KILL
  | UNSTOPPABLE
  | ULTRA_KILL
  | GODLIKE
  | LUDICROUS
  | ULTIMATE
  deriving DecidableEq, Inhabited

/-- The local table `killStreaks` of `play_kill_streak_sound`. -/
def killStreaks (kill_count : Int) : Option KillStreakSound :=
  if kill_count = 1 then some .FIRST_BLOOD
  else if kill_count = 2 then some .DOUBLE_KILL
  else if kill_count = 3 then some .TRIPLE_KILL
  else if kill_count = 4 then some .UNSTOPPABLE
  else if kill_count = 5 then some .ULTRA_KILL
  else if kill_count = 6 then some .GODLIKE
  else if kill_count = 7 then some .LUDICROUS
  else if kill_count = 10 then some .ULTIMATE
  else none

/-- kill_streaks.cpp `update_player_attributes`. -/
def update_player_attributes (game : game_data) (damage rocket_count : Int)
    (player_boost : ℚ) : game_data :=
  { game with
    player := { game.player with
      damage := damage, rocket_count := rocket_count, player_boost := player_boost } }

/-- The loop of `activate_ultimate_kill_streak`: each enemy in turn stores its
damage value under its kind and is then set to `0.0`. -/
def activate_loop : List enemy_data → damage_map → List enemy_data × damage_map
  | [], m => ([], m)
  | enemy :: rest, m =>
    let m1 := m.assign enemy.kind enemy.damage_value
    let r := activate_loop rest m1
    ({ enemy with damage_value := 0 } :: r.1, r.2)

/-- kill_streaks.cpp `activate_ultimate_kill_streak`. -/
def activate_ultimate_kill_streak (eng : engine) (game : game_data) : game_data :=
  let game1 : game_data :=
    { game with player := { game.player with original_ammo_state := game.player.rocket_count } }
  let game2 := update_player_attributes game1 500 1000 10
  let r := activate_loop game2.enemies game2.original_damage_values
  { game2 with
    enemies := r.1
    original_damage_values := r.2
    is_kill_streak_active := true
    last_kill_streak_tick := eng.timer_ticks }

/-- kill_streaks.cpp `play_kill_streak_sound`: on the milestone 10 it
activates the Ultimate, on the other milestones it only plays a sound. -/
def play_kill_streak_sound (eng : engine) (game : game_data) : game_data :=
  match killStreaks game.player.kill_count with
  | some sound =>
    if sound = KillStreakSound.ULTIMATE then activate_ultimate_kill_streak eng game
    else game
  | none => game

/-- The loop of `end_ultimate_kill_streak`: each enemy in turn reads
`original_damage_values[enemy.kind]`. -/
def end_loop : List enemy_data → damage_map → List enemy_data × damage_map
  | [], m => ([], m)
  | enemy :: rest, m =>
    let v := m.index enemy.kind
    let r := end_loop rest v.2
    ({ enemy with damage_value := v.1 } :: r.1, r.2)

/-- kill_streaks.cpp `end_ultimate_kill_streak`. -/
def end_ultimate_kill_streak (eng : engine) (game : game_data) : game_data :=
  let game1 := update_player_attributes game 100 game.player.original_ammo_state 6
  let r := end_loop game1.enemies game1.original_damage_values
  { game1 with
    enemies := r.1
    original_damage_values := r.2
    is_kill_streak_active := false
    last_kill_streak_tick := eng.timer_ticks }

/-- kill_streaks.cpp `should_end_kill_streak`: the unsigned timer reading is
converted to `double` before the subtraction. -/
def should_end_kill_streak (eng : engine) (game : game_data) : Bool :=
  game.is_kill_streak_active &&
    decide ((eng.timer_ticks : ℚ) - game.last_kill_streak_tick ≥ 15000)

/-- kill_streaks.cpp `update_kill_streaks`. -/
def update_kill_streaks (eng : engine) (game : game_data) : game_data :=
  if should_end_kill_streak eng game then end_ultimate_kill_streak eng game
  else game

/-! ## game_data.cpp -/

/-- game_data.cpp `game_over`. -/
def game_over (game : game_data) : game_data :=
  { game with state := game_state.GAME_OVER }

/-! ## collision.cpp -/

/-- collision.cpp `handle_enemy_collision`; the reference `enemy` is
`game.enemies[enemy_index]`, as at its call site. -/
def handle_enemy_collision (eng : engine) (game : game_data)
    (enemy_index projectile_index : Nat) : Option game_data :=
  match game.enemies[enemy_index]? with
  | none => none
  | some enemy0 =>
    let enemy : enemy_data := { enemy0 with health := enemy0.health - game.player.damage }
    let game1 : game_data := { game with enemies := game.enemies.set enemy_index enemy }
    if enemy.health ≤ 0 then
      let game2 := add_explosion eng game1 enemy.enemy_sprite.x enemy.enemy_sprite.y
      let game3 : game_data := { game2 with enemies := game2.enemies.eraseIdx enemy_index }
      let game4 : game_data :=
        { game3 with player := { game3.player with kill_count := game3.player.kill_count + 1 } }
      let game5 := play_kill_streak_sound eng game4
      let game6 :=
        if game5.player.kill_count = 10 ∧ game5.is_kill_streak_active = false then
          activate_ultimate_kill_streak eng game5
        else game5
      if projectile_index < game6.projectiles.length then
        some { game6 with projectiles := game6.projectiles.eraseIdx projectile_index }
      else none
    else some game1

/-- collision.cpp `handle_projectile_collision`. -/
def handle_projectile_collision (game : game_data) (i : Nat) : Option game_data :=
  let hit : Option game_data :=
    if game.player.shield_pct ≠ 0 then
      some { game with player := { game.player with shield_pct := game.player.shield_pct - 0.15 } }
    else
      match game.enemies[i]? with
      | none => none
      | some enemy =>
        some { game with player := { game.player with fuel_pct := game.player.fuel_pct - enemy.damage_value } }
  match hit with
  | none => none
  | some game1 =>
    let game2 := if game1.player.fuel_pct ≤ 0 then game_over game1 else game1
    if i < game2.projectiles.length then
      some { game2 with projectiles := game2.projectiles.eraseIdx i }
    else none

/-! ## enemy.cpp and lost_in_space.cpp: spawning -/

/-- The window opened by program.cpp is 800 wide (`screen_width()`). -/
def screen_width : Nat := 800

/-- The window opened by program.cpp is 800 high (`screen_height()`). -/
def screen_height : Nat := 800

/-- Engine call `rnd(ubound)`: an integer in `[0, ubound)`, obtained here
from a raw random number `roll`. -/
def rnd (ubound : Nat) (roll : Nat) : Nat := roll % ubound

/-- Unsigned 32-bit subtraction, as C++ performs it on `unsigned int`. -/
def unsigned_sub (a b : Nat) : Nat := (a % 2 ^ 32 + 2 ^ 32 - b % 2 ^ 32) % 2 ^ 32

/-- enemy.cpp `enemy_bitmap`. -/
def enemy_bitmap (eng : engine) (kind : enemy_kind) : bitmap :=
  match kind with
  | .ENEMY_TYPE1 => eng.bitmap_named "enemy_type1"
  | .ENEMY_TYPE2 => eng.bitmap_named "enemy_type2"
  | .ENEMY_TYPE3 => eng.bitmap_named "enemy_type3"
  | .ENEMY_BOSS => eng.bitmap_named "BOSS"

/-- enemy.cpp `sprite_center_point`.  `sprite_width(s) / 2` and
`sprite_height(s) / 2` divide an `int` by an `int`: the quotient is truncated
towards zero before it is added to the coordinate. -/
def sprite_center_point (s : sprite) : point_2d :=
  { x := s.x + ((Int.tdiv s.width 2 : Int) : ℚ), y := s.y + ((Int.tdiv s.height 2 : Int) : ℚ) }

/-- The square of the engine call `point_point_distance`. -/
def point_point_distance_sq (p q : point_2d) : ℚ :=
  (p.x - q.x) ^ 2 + (p.y - q.y) ^ 2

/-- enemy.cpp `is_safe_distance_from_player`: the argument `min_distance` is
overwritten with 200; `distance > min_distance` is decided on the squares,
both sides being non-negative. -/
def is_safe_distance_from_player (position : point_2d) (player_sprite : sprite)
    (_min_distance : ℚ) : Bool :=
  let min_distance : ℚ := 200
  decide (point_point_distance_sq position (sprite_center_point player_sprite) > min_distance ^ 2)

/-- enemy.cpp `is_safe_distance_from_enemies`: the argument `min_distance` is
overwritten with 200; the loop returns false at the first enemy within it. -/
def is_safe_distance_from_enemies (position : point_2d) (enemies : List enemy_data)
    (_min_distance : ℚ) : Bool :=
  let min_distance : ℚ := 200
  match enemies with
  | [] => true
  | enemy :: rest =>
    if point_point_distance_sq position (sprite_center_point enemy.enemy_sprite) ≤ min_distance ^ 2 then
      false
    else is_safe_distance_from_enemies position rest min_distance

/-- The local struct `enemy_attributes` of `new_enemy`. -/
structure enemy_attributes where
  health : Int
  speed : Int
  rotation_speed : Int
  damage_value : ℚ
  type : damage_type

/-- The local table `enemy_type_attributes` of `new_enemy`. -/
def enemy_type_attributes (kind : enemy_kind) : enemy_attributes :=
  match kind with
  | .ENEMY_TYPE1 => { health := 100, speed := 2, rotation_speed := 3, damage_value := 0.05, type := .DAMAGE_TYPE1 }
  | .ENEMY_TYPE2 => { health := 200, speed := 2, rotation_speed := 1, damage_value := 0.3, type := .DAMAGE_TYPE2 }
  | .ENEMY_TYPE3 => { health := 150, speed := 2, rotation_speed := 1, damage_value := 0.10, type := .DAMAGE_TYPE3 }
  | .ENEMY_BOSS => { health := 500, speed := 5, rotation_speed := 5, damage_value := 0.75, type := .DAMAGE_BOSS }

/-- The placement loop of `new_enemy`: positions are drawn until one is at a
safe distance from the player and from every enemy.  `rolls` are the raw
random numbers of the successive draws; `none` means they ran out with the
loop still running. -/
def new_enemy_position (player : player_data) (enemies : List enemy_data) :
    List (Nat × Nat) → Option point_2d
  | [] => none
  | roll :: rest =>
    let position : point_2d := { x := rnd screen_width roll.1, y := rnd screen_height roll.2 }
    if !is_safe_distance_from_player position player.player_sprite 200
        || !is_safe_distance_from_enemies position enemies 200 then
      new_enemy_position player enemies rest
    else some position

/-- enemy.cpp `new_enemy`.  `uninit` holds the indeterminate initial contents
of the local `result`; `rolls` and `rotation_roll` are the random draws. -/
def new_enemy (eng : engine) (uninit : enemy_data) (kind : enemy_kind) (player : player_data)
    (enemies : List enemy_data) (rolls : List (Nat × Nat)) (rotation_roll : Nat) :
    Option enemy_data :=
  let default_bitmap := enemy_bitmap eng kind
  let result : enemy_data :=
    { uninit with
      enemy_sprite := create_sprite default_bitmap
      kind := kind
      last_projectile_tick := 0
      projectiles := []
      health := (enemy_type_attributes kind).health
      speed := (enemy_type_attributes kind).speed
      rotation_speed := (enemy_type_attributes kind).rotation_speed
      damage_value := (enemy_type_attributes kind).damage_value
      type := (enemy_type_attributes kind).type }
  match new_enemy_position player enemies rolls with
  | none => none
  | some position =>
    some { result with
      enemy_sprite :=
        sprite_set_rotation (sprite_set_position result.enemy_sprite position)
          (rnd 360 rotation_roll) }

/-- The cast `static_cast<enemy_kind>(n)` for the values of the enumeration. -/
def enemy_kind_of_int (n : Nat) : Option enemy_kind :=
  match n with
  | 0 => some .ENEMY_TYPE1
  | 1 => some .ENEMY_TYPE2
  | 2 => some .ENEMY_TYPE3
  | 3 => some .ENEMY_BOSS
  | _ => none

/-- The random draws consumed by one call of `add_enemy`. -/
structure spawn_rolls where
  kind_roll : Nat
  position_rolls : List (Nat × Nat)
  rotation_roll : Nat

/-- lost_in_space.cpp `add_enemy`. -/
def add_enemy (eng : engine) (uninit : enemy_data) (rolls : spawn_rolls) (game : game_data) :
    Option game_data :=
  match enemy_kind_of_int (rnd 3 rolls.kind_roll) with
  | none => none
  | some kind =>
    match new_enemy eng uninit kind game.player game.enemies rolls.position_rolls
        rolls.rotation_roll with
    | none => none
    | some enemy => some { game with enemies := game.enemies ++ [enemy] }

/-- lost_in_space.cpp `spawn_enemy`: the elapsed time is an unsigned
subtraction. -/
def spawn_enemy (eng : engine) (uninit : enemy_data) (rolls : spawn_rolls) (game : game_data) :
    Option game_data :=
  if unsigned_sub eng.timer_ticks game.last_enemy_spawn_tick ≥ game.enemy_spawn_interval then
    match add_enemy eng uninit rolls game with
    | none => none
    | some game1 => some { game1 with last_enemy_spawn_tick := eng.timer_ticks }
  else some game

/-! ## Engine and C library functions -/

/-- The functions of the engine and of the C mathematics library that the
core calls on sprites and angles, left uninterpreted. -/
structure library where
  update_sprite : sprite → sprite
  sprite_collision_circle : sprite → circle
  center_point : sprite → point_2d
  cos : ℚ → ℚ
  sin : ℚ → ℚ
  atan2 : ℚ → ℚ → ℚ
  pi : ℚ

/-! ## collision.cpp: circles and the enemy-projectile pass -/

/-- Rounding of a rational to the nearest integer, a tie going to the even
neighbour (the default rounding mode of IEEE 754 arithmetic). -/
def round_half_even (q : ℚ) : Int :=
  let f := ⌊q⌋
  if q - f < 1 / 2 then f
  else if 1 / 2 < q - f then f + 1
  else if f % 2 = 0 then f else f + 1

/-- The conversion of a `double` to `float` that initialising a `float`
variable performs: the value is rounded to 24 significant binary digits.  For
`2 ^ e ≤ |q| < 2 ^ (e + 1)` the neighbouring `float` values are `2 ^ (e - 23)`
apart.  Overflow to infinity and the subnormal range lie outside the model. -/
def to_float (q : ℚ) : ℚ :=
  if q = 0 then 0
  else
    let e := Int.log 2 |q|
    let ulp : ℚ := 2 ^ (e - 23)
    (if q < 0 then -1 else 1) * (round_half_even (|q| / ulp) : ℚ) * ulp

/-- collision.cpp `circle_collision`.  The two local variables are declared
`float`, so the squared distance and the sum of the radii are narrowed before
they are compared; `pow(radius_sum, 2)` squares a `float` in `double`, which
is exact. -/
def circle_collision (c1 c2 : circle) : Bool :=
  let distance_squared : ℚ :=
    to_float ((c1.center.x - c2.center.x) ^ 2 + (c1.center.y - c2.center.y) ^ 2)
  let radius_sum : ℚ := to_float (c1.radius + c2.radius)
  decide (distance_squared ≤ radius_sum ^ 2)

/-- The loop of `check_enemy_projectile_collisions`, with `n` indices left to
visit: the next index is `n - 1`, read in the current state. -/
def check_enemy_projectile_collisions_loop (lib : library) :
    Nat → game_data → Option game_data
  | 0, game => some game
  | i + 1, game =>
    match game.projectiles[i]? with
    | none => none
    | some projectile =>
      if projectile.owner = 1 ∧
          circle_collision projectile.shape
            (lib.sprite_collision_circle game.player.player_sprite) = true then
        match handle_projectile_collision game i with
        | none => none
        | some game1 => check_enemy_projectile_collisions_loop lib i game1
      else check_enemy_projectile_collisions_loop lib i game

/-- collision.cpp `check_enemy_projectile_collisions`: the indices are visited
from `size - 1` down to 0. -/
def check_enemy_projectile_collisions (lib : library) (game : game_data) : Option game_data :=
  check_enemy_projectile_collisions_loop lib game.projectiles.length game

/-! ## power_up.cpp -/

/-- power_up.cpp `POWER_UP_TYPES`. -/
def POWER_UP_TYPES : Nat := 6

/-- power_up.cpp `POWER_UP_BONUS`. -/
def POWER_UP_BONUS : ℚ := 0.25

/-- power_up.cpp `MAX_PERCENT`. -/
def MAX_PERCENT : ℚ := 1

/-- power_up.cpp `EXTRA_TIME`. -/
def EXTRA_TIME : Int := 5

/-- power_up.cpp `random_power_up_kind`. -/
def random_power_up_kind (roll : Nat) : power_up_kind :=
  (rnd POWER_UP_TYPES roll : Nat)

/-- power_up.cpp `power_up_bitmap`: a switch on the kind with a default
branch. -/
def power_up_bitmap (eng : engine) (kind : power_up_kind) : bitmap :=
  if kind = SHIELD then eng.bitmap_named "shield"
  else if kind = ROCKET then eng.bitmap_named "bullet"
  else if kind = FUEL then eng.bitmap_named "fuel"
  else eng.bitmap_named "time"

/-- Engine call `sprite_set_velocity`. -/
def sprite_set_velocity (s : sprite) (dx dy : ℚ) : sprite :=
  { s with dx := dx, dy := dy }

/-- power_up.cpp `new_power_up`.  `uninit` holds the indeterminate initial
contents of the local `result`, of which only `kind`, `power_up_sprite` and
`is_visible` are assigned; `kind_roll` is the draw of `rnd(6)` and `rnd_x`,
`rnd_y` are the two draws of `rnd()`. -/
def new_power_up (eng : engine) (uninit : power_up_data) (kind_roll : Nat) (x y : ℚ)
    (rnd_x rnd_y : ℚ) : power_up_data :=
  let result : power_up_data := { uninit with kind := random_power_up_kind kind_roll }
  let result : power_up_data :=
    { result with power_up_sprite := create_sprite (power_up_bitmap eng result.kind) }
  let result : power_up_data :=
    { result with
      power_up_sprite :=
        sprite_set_velocity (sprite_set_position result.power_up_sprite { x := x, y := y })
          (rnd_x * 4 - 2) (rnd_y * 4 - 2) }
  { result with is_visible := true }

/-- power_up.cpp `apply_shield`. -/
def apply_shield (game : game_data) : game_data :=
  { game with
    player := { game.player with
      shield_pct := min MAX_PERCENT (game.player.shield_pct + POWER_UP_BONUS) } }

/-- power_up.cpp `apply_rocket`. -/
def apply_rocket (game : game_data) : game_data :=
  { game with player := { game.player with rocket_count := game.player.rocket_count + 1 } }

/-- power_up.cpp `apply_fuel`. -/
def apply_fuel (game : game_data) : game_data :=
  { game with
    player := { game.player with
      fuel_pct := min MAX_PERCENT (game.player.fuel_pct + POWER_UP_BONUS) } }

/-- power_up.cpp `apply_time`. -/
def apply_time (game : game_data) : game_data :=
  { game with
    player := { game.player with time_remaining := game.player.time_remaining + EXTRA_TIME } }

/-- power_up.cpp `apply_power_up`: a switch on the kind with a default
branch. -/
def apply_power_up (game : game_data) (power_up : power_up_data) : game_data :=
  if power_up.kind = SHIELD then apply_shield game
  else if power_up.kind = ROCKET then apply_rocket game
  else if power_up.kind = FUEL then apply_fuel game
  else apply_time game

/-- power_up.cpp `bounce_power_up`. -/
def bounce_power_up (power_up : power_up_data) : power_up_data :=
  let MIN : Int := -1300
  let MAX : Int := 1300
  let power_up1 : power_up_data :=
    if power_up.position.x > MAX ∨ power_up.position.x < MIN then
      { power_up with velocity := { power_up.velocity with x := -power_up.velocity.x } }
    else power_up
  if power_up1.position.y > MAX ∨ power_up1.position.y < MIN then
    { power_up1 with velocity := { power_up1.velocity with y := -power_up1.velocity.y } }
  else power_up1

/-- power_up.cpp `update_power_up`. -/
def update_power_up (lib : library) (power_up : power_up_data) : power_up_data :=
  bounce_power_up { power_up with power_up_sprite := lib.update_sprite power_up.power_up_sprite }

/-! ## enemy.cpp: state and firing -/

/-- enemy.cpp `PROJECTILE_FIRE_INTERVAL`. -/
def PROJECTILE_FIRE_INTERVAL : Int := 2000

/-- Conversion of an `int` to `unsigned int`. -/
def to_unsigned (n : Int) : Nat := (n % 2 ^ 32).toNat

/-- Conversion of an `unsigned int` to `int`. -/
def to_signed (n : Nat) : Int :=
  if n % 2 ^ 32 < 2 ^ 31 then (n % 2 ^ 32 : Nat) else (n % 2 ^ 32 : Nat) - 2 ^ 32

/-- enemy.cpp `update_enemy_state`: `distance_to_player < 300` is decided on
the squares, both sides being non-negative; `roll` is the raw random number
behind `rnd(100)`. -/
def update_enemy_state (enemy : enemy_data) (player : player_data) (roll : Nat) : enemy_data :=
  if point_point_distance_sq (sprite_center_point enemy.enemy_sprite)
      (sprite_center_point player.player_sprite) < 300 ^ 2 then
    if rnd 100 roll < 30 then
      { enemy with
        state := if enemy.state = enemy_state.ATTACK then enemy_state.CHASE else enemy_state.ATTACK }
    else enemy
  else { enemy with state := enemy_state.PATROL }

/-- enemy.cpp `calculate_delay`; `random_num` is `rand() / RAND_MAX`. -/
def calculate_delay (random_num : ℚ) : ℚ :=
  if random_num > 0.5 then 2 else 1

/-- enemy.cpp `calculate_angle`. -/
def calculate_angle (lib : library) (enemy_point player_point : point_2d) : ℚ :=
  let angle_radians := lib.atan2 (player_point.y - enemy_point.y) (player_point.x - enemy_point.x)
  angle_radians * (-180 / lib.pi)

/-- shooting.cpp `circle_point_position`. -/
def circle_point_position (lib : library) (ship : sprite) : point_2d :=
  let rotation_radians := ship.rotation * (lib.pi / 180)
  let circle_radius := ship.width / 2
  let point_x := circle_radius * lib.cos rotation_radians
  let point_y := circle_radius * lib.sin rotation_radians
  let ship_center := lib.center_point ship
  { x := ship_center.x + point_x, y := ship_center.y + point_y }

/-- enemy.cpp `create_projectile (position, angle)`. -/
def create_projectile (position : point_2d) (angle : ℚ) : projectile_data :=
  { shape := { center := position, radius := 6 }, angle := angle, speed := 1000, owner := 1 }

/-- enemy.cpp `create_enemy_projectile`.  The reference `enemy` is returned
next to the game; the first subtraction is unsigned, the second is made on
`double`. -/
def create_enemy_projectile (lib : library) (eng : engine) (random_num : ℚ) (game : game_data)
    (player : player_data) (enemy : enemy_data) : game_data × enemy_data :=
  let time_since_last_projectile : ℚ :=
    (unsigned_sub eng.timer_ticks (to_unsigned enemy.last_projectile_tick) : Nat)
  if enemy.state = enemy_state.ATTACK ∧ time_since_last_projectile ≥ PROJECTILE_FIRE_INTERVAL then
    if enemy.attack_start_time = 0 then
      (game, { enemy with attack_start_time := eng.timer_ticks })
    else
      let time_since_attack_start : ℚ := eng.timer_ticks - enemy.attack_start_time
      let delay_multiplier := calculate_delay random_num
      if time_since_attack_start < 1000 * delay_multiplier then (game, enemy)
      else
        let enemy_circle_point := circle_point_position lib enemy.enemy_sprite
        let player_center := sprite_center_point player.player_sprite
        let angle_degrees := calculate_angle lib enemy_circle_point player_center
        let new_projectile := create_projectile enemy_circle_point angle_degrees
        ({ game with projectiles := game.projectiles ++ [new_projectile] },
          { enemy with
            last_projectile_tick := to_signed eng.timer_ticks
            attack_start_time := 0 })
  else (game, enemy)

/-! ## enemy.cpp: movement -/

/-- lost_in_space.h `MIN_X`. -/
def MIN_X : Int := -1500

/-- lost_in_space.h `MAX_X`. -/
def MAX_X : Int := 1500

/-- lost_in_space.h `MIN_Y`. -/
def MIN_Y : Int := -1500

/-- lost_in_space.h `MAX_Y`. -/
def MAX_Y : Int := 1500

/-- Engine call `sprite_set_x`. -/
def sprite_set_x (s : sprite) (x : ℚ) : sprite :=
  { s with x := x }

/-- Engine call `sprite_set_y`. -/
def sprite_set_y (s : sprite) (y : ℚ) : sprite :=
  { s with y := y }

/-- enemy.cpp `update_enemy_boundaries`. -/
def update_enemy_boundaries (enemy : enemy_data) : enemy_data :=
  let enemy1 : enemy_data :=
    if enemy.new_x ≥ MIN_X ∧ enemy.new_x ≤ MAX_X then
      { enemy with enemy_sprite := sprite_set_x enemy.enemy_sprite enemy.new_x }
    else
      { enemy with
        enemy_sprite := sprite_set_rotation enemy.enemy_sprite (enemy.enemy_sprite.rotation + 180) }
  if enemy1.new_y ≥ MIN_Y ∧ enemy1.new_y ≤ MAX_Y then
    { enemy1 with enemy_sprite := sprite_set_y enemy1.enemy_sprite enemy1.new_y }
  else
    { enemy1 with
      enemy_sprite := sprite_set_rotation enemy1.enemy_sprite (enemy1.enemy_sprite.rotation + 180) }

/-- lost_in_space.cpp `update_game_time`: the elapsed time is an unsigned
subtraction. -/
def update_game_time (eng : engine) (game : game_data) : game_data :=
  let game1 : game_data :=
    if unsigned_sub eng.timer_ticks game.last_second_tick ≥ 1000 then
      { game with
        player := { game.player with time_remaining := game.player.time_remaining - 1 }
        last_second_tick := eng.timer_ticks }
    else game
  if game1.player.time_remaining ≤ 0 then { game1 with state := game_state.GAME_OVER }
  else game1

/-! ## collision.cpp: the player-projectile pass -/

/-- The inner loop of `check_player_projectile_collisions` for the projectile
at index `i`, with `n` enemies left to visit: the next enemy index is `n - 1`;
the first enemy hit is handled and ends the loop. -/
def check_player_projectile_enemies (lib : library) (eng : engine) (i : Nat) :
    Nat → game_data → Option game_data
  | 0, game => some game
  | j + 1, game =>
    match game.projectiles[i]?, game.enemies[j]? with
    | some projectile, some enemy =>
      if circle_collision projectile.shape (lib.sprite_collision_circle enemy.enemy_sprite)
          = true then
        handle_enemy_collision eng game j i
      else check_player_projectile_enemies lib eng i j game
    | _, _ => none

/-- The outer loop of `check_player_projectile_collisions`, with `n`
projectile indices left to visit: the next index is `n - 1`. -/
def check_player_projectile_collisions_loop (lib : library) (eng : engine) :
    Nat → game_data → Option game_data
  | 0, game => some game
  | i + 1, game =>
    match game.projectiles[i]? with
    | none => none
    | some projectile =>
      if projectile.owner = 0 then
        match check_player_projectile_enemies lib eng i game.enemies.length game with
        | none => none
        | some game1 => check_player_projectile_collisions_loop lib eng i game1
      else check_player_projectile_collisions_loop lib eng i game

/-- collision.cpp `check_player_projectile_collisions`. -/
def check_player_projectile_collisions (lib : library) (eng : engine) (game : game_data) :
    Option game_data :=
  check_player_projectile_collisions_loop lib eng game.projectiles.length game

/-! ## Counting the activations of the Ultimate -/

/-- kill_streaks.cpp `play_kill_streak_sound`, returning next to the game the
number of calls of `activate_ultimate_kill_streak` it has made. -/
def play_kill_streak_sound_counted (eng : engine) (game : game_data) : game_data × Nat :=
  match killStreaks game.player.kill_count with
  | some sound =>
    if sound = KillStreakSound.ULTIMATE then (activate_ultimate_kill_streak eng game, 1)
    else (game, 0)
  | none => (game, 0)

/-- collision.cpp `handle_enemy_collision`, returning next to the game the
number of calls of `activate_ultimate_kill_streak` made during the call. -/
def handle_enemy_collision_counted (eng : engine) (game : game_data)
    (enemy_index projectile_index : Nat) : Option (game_data × Nat) :=
  match game.enemies[enemy_index]? with
  | none => none
  | some enemy0 =>
    let enemy : enemy_data := { enemy0 with health := enemy0.health - game.player.damage }
    let game1 : game_data := { game with enemies := game.enemies.set enemy_index enemy }
    if enemy.health ≤ 0 then
      let game2 := add_explosion eng game1 enemy.enemy_sprite.x enemy.enemy_sprite.y
      let game3 : game_data := { game2 with enemies := game2.enemies.eraseIdx enemy_index }
      let game4 : game_data :=
        { game3 with player := { game3.player with kill_count := game3.player.kill_count + 1 } }
      let r5 := play_kill_streak_sound_counted eng game4
      let r6 : game_data × Nat :=
        if r5.1.player.kill_count = 10 ∧ r5.1.is_kill_streak_active = false then
          (activate_ultimate_kill_streak eng r5.1, r5.2 + 1)
        else r5
      if projectile_index < r6.1.projectiles.length then
        some ({ r6.1 with projectiles := r6.1.projectiles.eraseIdx projectile_index }, r6.2)
      else none
    else some (game1, 0)

/-- One step of a frame, seen from `player.kill_count` and
`is_kill_streak_active`, with the number of activations of the Ultimate it
makes: a call of `handle_enemy_collision`, a call of `update_kill_streaks`, or
any other update of the game, none of which writes either field. -/
inductive frame_step : game_data → Nat → game_data → Prop where
  | hit (eng : engine) (game game' : game_data) (j i n : Nat) :
      handle_enemy_collision_counted eng game j i = some (game', n) → frame_step game n game'
  | expire (eng : engine) (game : game_data) :
      frame_step game 0 (update_kill_streaks eng game)
  | other (game game' : game_data) :
      game'.player.kill_count = game.player.kill_count →
      game'.is_kill_streak_active = game.is_kill_streak_active → frame_step game 0 game'

/-- A sequence of frame steps, with the total number of activations of the
Ultimate made along it. -/
inductive frames : game_data → Nat → game_data → Prop where
  | nil (game : game_data) : frames game 0 game
  | cons (game game1 game2 : game_data) (n k : Nat) :
      frames game n game1 → frame_step game1 k game2 → frames game (n + k) game2

/-! ## player.cpp -/

/-- player.cpp `player_attributes`. -/
def player_attributes (player : player_data) : player_data :=
  { player with
    damage := 100
    fuel_pct := 1
    shield_pct := 0
    rocket_count := 25
    has_moved := false
    time_remaining := 120
    kill_count := 0
    player_boost := 6
    player_speed := 2 }

/-! ## Concrete states -/

/-- An engine whose bitmaps are all 64 by 64 and whose clocks read 5000. -/
def sample_engine : engine :=
  { bitmap_named := fun _ => { width := 64, height := 64 }
    current_ticks := 5000
    timer_ticks := 5000 }

/-- A 64 by 64 sprite at rest at `(x, y)`. -/
def sample_sprite (x y : ℚ) : sprite :=
  { x := x, y := y, rotation := 0, dx := 0, dy := 0, width := 64, height := 64 }

/-- An enemy of the given kind, health and damage value at `(x, y)`. -/
def sample_enemy (kind : enemy_kind) (x y : ℚ) (health : Int) (damage_value : ℚ) : enemy_data :=
  { enemy_sprite := sample_sprite x y
    kind := kind
    last_projectile_tick := 0
    health := health
    speed := 2
    rotation_speed := 1
    state := .PATROL
    attack_start_time := 0
    projectiles := []
    shape := { center := { x := x, y := y }, radius := 32 }
    type := .DAMAGE_TYPE1
    damage_value := damage_value
    original_damage := 0
    distance_to_player := 0
    angle_to_player := 0
    rotation_diff := 0
    new_x := x
    new_y := y
    adjusted_speed := 0 }

/-- A projectile of radius 4 (player) at `(x, y)` with the given owner. -/
def sample_projectile (x y : ℚ) (owner : Int) : projectile_data :=
  { shape := { center := { x := x, y := y }, radius := 4 }, angle := 0, speed := 10, owner := owner }

/-- The player as `player_attributes` initialises it, at `(400, 400)`. -/
def sample_player : player_data :=
  player_attributes
    { player_sprite := sample_sprite 400 400
      hud_sprite := sample_sprite 0 0
      kind := .AQUARII
      current_rotation := 0
      fuel_pct := 0
      shield_pct := 0
      rocket_count := 0
      has_moved := false
      time_remaining := 0
      kill_count := 0
      damage := 0
      original_ammo_state := 0
      player_speed := 0
      player_boost := 0
      player_ultra_boost := 0 }

/-- A game in progress with the fresh player and no other entity. -/
def sample_game : game_data :=
  { player := sample_player
    planets := []
    enemies := []
    projectiles := []
    power_ups := []
    explosions := []
    original_damage_values := fun _ => none
    map_width := 3000
    map_height := 3000
    is_kill_streak_active := false
    last_kill_streak_tick := 0
    state := .IN_PROGRESS
    intro_music_started := false
    last_enemy_spawn_tick := 0
    enemy_spawn_interval := 3000
    last_power_up_spawn_tick := 0
    power_up_spawn_interval := 10000
    last_second_tick := 0 }

/-- One enemy of health 100 and one player projectile: the kill scenario. -/
def kill_game : game_data :=
  { sample_game with
    enemies := [sample_enemy .ENEMY_TYPE1 100 200 100 0.05]
    projectiles := [sample_projectile 100 200 0] }

/-- As `kill_game`, with nine kills already counted and a second enemy. -/
def ninth_kill_game : game_data :=
  { sample_game with
    player := { sample_player with kill_count := 9 }
    enemies := [sample_enemy .ENEMY_TYPE1 100 200 100 0.05, sample_enemy .ENEMY_TYPE2 700 700 200 0.3]
    projectiles := [sample_projectile 100 200 0] }

/-- One enemy of health 200 and one player projectile: a hit that does not
kill. -/
def graze_game : game_data :=
  { sample_game with
    enemies := [sample_enemy .ENEMY_TYPE2 100 200 200 0.3]
    projectiles := [sample_projectile 100 200 0] }

/-- The Ultimate activated on a game with one enemy of health 1000 and one
player projectile. -/
def buff_game : game_data :=
  activate_ultimate_kill_streak sample_engine
    { sample_game with
      enemies := [sample_enemy .ENEMY_BOSS 100 200 1000 0.75]
      projectiles := [sample_projectile 100 200 0] }

/-- Two enemies of one kind with different damage values. -/
def mixed_game : game_data :=
  { sample_game with
    enemies := [sample_enemy .ENEMY_TYPE1 100 200 100 1, sample_enemy .ENEMY_TYPE1 700 700 100 2] }

/-- One enemy of each of two kinds, with the damage values of `new_enemy`. -/
def pair_game : game_data :=
  { sample_game with
    enemies := [sample_enemy .ENEMY_TYPE1 100 200 100 0.05, sample_enemy .ENEMY_TYPE2 700 700 200 0.3] }

/-- Enemies of one kind carry one damage value, as `new_enemy` sets them. -/
def same_kind_same_damage (enemies : List enemy_data) : Prop :=
  ∀ a ∈ enemies, ∀ b ∈ enemies, a.kind = b.kind → a.damage_value = b.damage_value

/-- The engine of `sample_engine` 15000 ticks later. -/
def late_engine : engine :=
  { sample_engine with timer_ticks := 20000 }

/-- The Ultimate activated on `pair_game` at tick 5000. -/
def buffed_pair_game : game_data :=
  activate_ultimate_kill_streak sample_engine pair_game

/-- The draws of one spawn: kind 0, one candidate position `(400, 100)`,
rotation 90. -/
def sample_rolls : spawn_rolls :=
  { kind_roll := 0, position_rolls := [(400, 100)], rotation_roll := 90 }

/-- A player with a quarter of shield and full fuel, one enemy of damage value
0.05 and three enemy projectiles. -/
def shield_game : game_data :=
  { sample_game with
    player := { sample_player with shield_pct := 0.25 }
    enemies := [sample_enemy .ENEMY_TYPE1 100 200 100 0.05]
    projectiles :=
      [sample_projectile 400 400 1, sample_projectile 400 400 1, sample_projectile 400 400 1] }

/-- No shield, fuel 0.05, one enemy of damage value 0.10 and one enemy
projectile: the fuel depletion scenario. -/
def low_fuel_game : game_data :=
  { sample_game with
    player := { sample_player with fuel_pct := 0.05 }
    enemies := [sample_enemy .ENEMY_TYPE3 100 200 150 0.10]
    projectiles := [sample_projectile 400 400 1] }

/-- As `shield_game` after its first hit: shield 0.10. -/
def low_shield_game : game_data :=
  { shield_game with player := { shield_game.player with shield_pct := 0.10 } }

/-- A stand-in for the engine and the C library: `update_sprite` advances a
sprite by its velocity, the collision circle is centred on the sprite with
half its width as radius, and the trigonometric functions are constant. -/
def sample_library : library :=
  { update_sprite := fun s => { s with x := s.x + s.dx, y := s.y + s.dy }
    sprite_collision_circle := fun s => { center := sprite_center_point s, radius := s.width / 2 }
    center_point := sprite_center_point
    cos := fun _ => 1
    sin := fun _ => 0
    atan2 := fun _ _ => 0
    pi := 22 / 7 }

/-- The kill scenario of `kill_game` with `k` kills already counted. -/
def streak_game (k : Int) : game_data :=
  { kill_game with player := { sample_player with kill_count := k } }

/-- The state of `buff_game` (the Ultimate active, 25 rockets in
`original_ammo_state`) with ten kills counted. -/
def veteran_game : game_data :=
  { buff_game with player := { buff_game.player with kill_count := 10 } }

/-- The test of `check_enemy_projectile_collisions` on one projectile: it is
enemy-owned and overlaps the circle `c`. -/
def hits_player (c : circle) (projectile : projectile_data) : Bool :=
  decide (projectile.owner = 1) && circle_collision projectile.shape c

/-- Four projectiles around a player at `(400, 400)`: an enemy one on the
player, a player one on the player, an enemy one far away, an enemy one on the
player; four enemies and a shield of 0.25. -/
def crossfire_game : game_data :=
  { sample_game with
    player := { sample_player with shield_pct := 0.25 }
    enemies :=
      [sample_enemy .ENEMY_TYPE1 100 200 100 0.05, sample_enemy .ENEMY_TYPE2 700 700 200 0.3,
        sample_enemy .ENEMY_TYPE3 100 700 150 0.10, sample_enemy .ENEMY_BOSS 700 100 500 0.75]
    projectiles :=
      [sample_projectile 432 432 1, sample_projectile 432 432 0,
        sample_projectile 1000 1000 1, sample_projectile 430 430 1] }

/-- An enemy in state `ATTACK` whose centre is 150 from the centre of the
player of `sample_player` (90 across, 120 down). -/
def near_enemy : enemy_data :=
  { sample_enemy .ENEMY_TYPE1 310 280 100 0.05 with state := .ATTACK }

/-- An attacking enemy that fired at tick 1000 and started its windup at tick
3500. -/
def armed_enemy : enemy_data :=
  { near_enemy with last_projectile_tick := 1000, attack_start_time := 3500 }

/-- Nine enemies whose centres form a grid of step 267 over the 800 by 800
window: sprites at 101, 368 and 635 on each axis, centres at 133, 400, 667. -/
def crowded_enemies : List enemy_data :=
  [101, 368, 635].flatMap (fun x =>
    [101, 368, 635].map (fun y => sample_enemy .ENEMY_TYPE1 x y 100 0.05))

/-- The player of `sample_player`, moved to `(-1000, -1000)`. -/
def far_player : player_data :=
  { sample_player with player_sprite := sample_sprite (-1000) (-1000) }

/-- An enemy at `(1400, 100)` whose projected position `(1501, 120)` is past
the right border only. -/
def wall_enemy : enemy_data :=
  { sample_enemy .ENEMY_TYPE1 1400 100 100 0.05 with new_x := 1501, new_y := 120 }

/-- An enemy at `(1499, 1499)` heading at 45 degrees whose projected position
`(1501, 1501)` is past the border on both axes. -/
def corner_enemy : enemy_data :=
  { sample_enemy .ENEMY_TYPE1 1499 1499 100 0.05 with
    enemy_sprite := { sample_sprite 1499 1499 with rotation := 45 }
    new_x := 1501
    new_y := 1501 }

/-- A game whose last second tick was at 4000, with one second left. -/
def last_second_game : game_data :=
  { sample_game with
    player := { sample_player with time_remaining := 1 }
    last_second_tick := 4000 }

/-- No shield, one enemy and two enemy projectiles on the player. -/
def outnumbered_game : game_data :=
  { sample_game with
    enemies := [sample_enemy .ENEMY_TYPE1 100 200 100 0.05]
    projectiles := [sample_projectile 432 432 1, sample_projectile 432 432 1] }

/-- The state of `buffed_pair_game` after the spawn of an enemy of a third
kind, which has no entry in the snapshot map. -/
def stranger_game : game_data :=
  { buffed_pair_game with
    enemies := buffed_pair_game.enemies ++ [sample_enemy .ENEMY_TYPE3 100 700 150 0.10] }

/-- Half the side of a 64 pixel bitmap, as `sprite_center_point` computes it. -/
@[simp] theorem tdiv_sixty_four : Int.tdiv 64 2 = 32 := by decide

/-- A distance exceeds a bound exactly when its square exceeds the square of
the bound. -/
theorem lt_sqrt_cast (c q : ℚ) (hc : 0 ≤ c) : (c : ℝ) < Real.sqrt (q : ℝ) ↔ c ^ 2 < q := by
  rw [Real.lt_sqrt (by exact_mod_cast hc)]
  exact_mod_cast Iff.rfl

theorem sqrt_cast_lt (c q : ℚ) (hc : 0 < c) : Real.sqrt (q : ℝ) < (c : ℝ) ↔ q < c ^ 2 := by
  rw [Real.sqrt_lt' (by exact_mod_cast hc)]
  exact_mod_cast Iff.rfl

theorem round_half_even_intCast (n : ℤ) : round_half_even (n : ℚ) = n := by
  simp [round_half_even]

/-- Integers below `2 ^ 24` in absolute value are `float` values: narrowing
leaves them as they are. -/
theorem to_float_intCast (n : ℤ) (h : |n| < 2 ^ 24) : to_float (n : ℚ) = n := by
  unfold to_float
  by_cases h0 : (n : ℚ) = 0
  · simp [h0]
  · rw [if_neg h0]
    have hpos : (0 : ℚ) < |(n : ℚ)| := abs_pos.mpr h0
    have hle : ((2 : ℕ) : ℚ) ^ Int.log 2 |(n : ℚ)| ≤ |(n : ℚ)| :=
      Int.zpow_log_le_self (by norm_num) hpos
    have hlt : |(n : ℚ)| < (2 : ℚ) ^ (24 : ℤ) := by
      have : ((|n| : ℤ) : ℚ) < ((2 ^ 24 : ℤ) : ℚ) := by exact_mod_cast h
      push_cast at this
      norm_num at this ⊢
      exact this
    have he : Int.log 2 |(n : ℚ)| < 24 := by
      have : ((2 : ℕ) : ℚ) ^ Int.log 2 |(n : ℚ)| < (2 : ℚ) ^ (24 : ℤ) := lt_of_le_of_lt hle hlt
      have h2 : (1 : ℚ) < 2 := by norm_num
      exact (zpow_lt_zpow_iff_right₀ h2).mp (by exact_mod_cast this)
    obtain ⟨k, hk⟩ : ∃ k : ℕ, Int.log 2 |(n : ℚ)| - 23 = -(k : ℤ) :=
      ⟨(23 - Int.log 2 |(n : ℚ)|).toNat, by omega⟩
    simp only [hk, zpow_neg, zpow_natCast, div_inv_eq_mul]
    have : |(n : ℚ)| * 2 ^ k = ((|n| * 2 ^ k : ℤ) : ℚ) := by push_cast; rfl
    rw [this, round_half_even_intCast]
    push_cast
    have h2k : (2 : ℚ) ^ k ≠ 0 := by positivity
    rw [mul_assoc, mul_assoc, mul_inv_cancel₀ h2k, mul_one]
    split_ifs with hneg
    · rw [abs_of_neg hneg]; ring
    · rw [abs_of_nonneg (not_lt.mp hneg)]; ring

@[simp] theorem to_float_zero : to_float 0 = 0 := by simp [to_float]

@[simp] theorem to_float_one : to_float 1 = 1 := by
  have h := to_float_intCast 1 (by norm_num)
  exact_mod_cast h

/-- Narrowing of a numeral below `2 ^ 24`. -/
@[simp] theorem to_float_ofNat (n : ℕ) (h : n < 2 ^ 24) :
    to_float (no_index (OfNat.ofNat n : ℚ)) = OfNat.ofNat n := by
  have := to_float_intCast (n : ℤ) (by rw [abs_of_nonneg (by positivity)]; exact_mod_cast h)
  simpa using this

theorem activate_loop_fst (es : List enemy_data) (m : damage_map) :
    (activate_loop es m).1 = es.map (fun e => { e with damage_value := 0 }) := by
  induction es generalizing m with
  | nil => rfl
  | cons e rest ih => simp [activate_loop, ih]

theorem eraseIdx_set_same {α : Type} (l : List α) (j : Nat) (a : α) :
    (l.set j a).eraseIdx j = l.eraseIdx j := by
  induction l generalizing j with
  | nil => rfl
  | cons x rest ih =>
    cases j with
    | zero => rfl
    | succ n => simp [List.set, List.eraseIdx, ih]

theorem index_snd_getD (m : damage_map) (k k' : enemy_kind) :
    ((m.index k).2 k').getD 0 = (m k').getD 0 := by
  unfold damage_map.index
  cases h : m k with
  | some v => rfl
  | none =>
    by_cases hk : k' = k
    · subst hk; simp [damage_map.assign, h]
    · simp [damage_map.assign, hk]

theorem index_fst (m : damage_map) (k : enemy_kind) : (m.index k).1 = (m k).getD 0 := by
  unfold damage_map.index
  cases h : m k <;> rfl

theorem end_loop_fst (es : List enemy_data) (m : damage_map) :
    (end_loop es m).1 = es.map (fun e => { e with damage_value := (m e.kind).getD 0 }) := by
  induction es generalizing m with
  | nil => rfl
  | cons e rest ih =>
    simp only [end_loop, List.map_cons, ih, index_fst, index_snd_getD]

theorem activate_loop_snd_of_absent (es : List enemy_data) (m : damage_map) (k : enemy_kind)
    (h : ∀ e ∈ es, e.kind ≠ k) : (activate_loop es m).2 k = m k := by
  induction es generalizing m with
  | nil => rfl
  | cons e rest ih =>
    have hk : k ≠ e.kind := fun hk => h e (List.mem_cons_self _ _) hk.symm
    simp only [activate_loop]
    rw [ih _ (fun e' he' => h e' (List.mem_cons_of_mem _ he'))]
    simp [damage_map.assign, hk]

theorem activate_loop_snd_of_mem (es : List enemy_data) (m : damage_map) (e0 : enemy_data)
    (h : e0 ∈ es) :
    ∃ e1 ∈ es, e1.kind = e0.kind ∧ (activate_loop es m).2 e0.kind = some e1.damage_value := by
  induction es generalizing m e0 with
  | nil => cases h
  | cons e rest ih =>
    simp only [activate_loop]
    by_cases hex : ∃ e1 ∈ rest, e1.kind = e0.kind
    · obtain ⟨e1, he1, hk1⟩ := hex
      obtain ⟨e2, he2, hk2, hv⟩ := ih (m.assign e.kind e.damage_value) e1 he1
      exact ⟨e2, List.mem_cons_of_mem _ he2, hk2.trans hk1, hk1 ▸ hv⟩
    · have hnone : ∀ e1 ∈ rest, e1.kind ≠ e0.kind := fun e1 he1 hk => hex ⟨e1, he1, hk⟩
      have he0 : e0 = e := by
        rcases List.mem_cons.mp h with h1 | h1
        · exact h1
        · exact absurd rfl (hnone e0 h1)
      subst he0
      refine ⟨e0, List.mem_cons_self _ _, rfl, ?_⟩
      rw [activate_loop_snd_of_absent _ _ _ hnone]
      simp [damage_map.assign]

theorem handle_projectile_collision_some (game game1 : game_data) (i : Nat)
    (h : handle_projectile_collision game i = some game1) :
    i < game.projectiles.length ∧ game1.projectiles = game.projectiles.eraseIdx i ∧
    game1.enemies = game.enemies ∧
    game1.player.player_sprite = game.player.player_sprite := by
  unfold handle_projectile_collision at h
  by_cases hs : game.player.shield_pct = 0
  · cases he : game.enemies[i]? with
    | none => simp [hs, he] at h
    | some enemy =>
      simp only [hs, he, ne_eq, not_true_eq_false, if_false, game_over] at h
      split_ifs at h <;> simp only [Option.some.injEq] at h <;> subst h <;>
        simp_all
  · simp only [hs, ne_eq, not_false_eq_true, if_true, game_over] at h
    split_ifs at h <;> simp only [Option.some.injEq] at h <;> subst h <;>
      simp_all

theorem handle_projectile_collision_returns (game : game_data) (i : Nat)
    (hp : i < game.projectiles.length)
    (he : game.player.shield_pct = 0 → i < game.enemies.length) :
    ∃ game1, handle_projectile_collision game i = some game1 := by
  unfold handle_projectile_collision
  by_cases hs : game.player.shield_pct = 0
  · have hget : game.enemies[i]? = some (game.enemies.get ⟨i, he hs⟩) := by
      simp [List.getElem?_eq_getElem (he hs)]
    simp only [hs, hget, ne_eq, not_true_eq_false, if_false]
    split_ifs <;> simp_all [game_over]
  · simp only [hs, ne_eq, not_false_eq_true, if_true]
    split_ifs <;> simp_all [game_over]

theorem check_loop_projectiles (lib : library) (n : Nat) :
    ∀ game game' : game_data, n ≤ game.projectiles.length →
      check_enemy_projectile_collisions_loop lib n game = some game' →
      game'.projectiles =
        (game.projectiles.take n).filter
            (fun p => !hits_player (lib.sprite_collision_circle game.player.player_sprite) p)
          ++ game.projectiles.drop n := by
  induction n with
  | zero =>
    intro game game' _ h
    simp only [check_enemy_projectile_collisions_loop, Option.some.injEq] at h
    subst h
    simp
  | succ n ih =>
    intro game game' hn h
    have hlt : n < game.projectiles.length := hn
    have hget : game.projectiles[n]? = some game.projectiles[n] := List.getElem?_eq_getElem hlt
    have htake : game.projectiles.take (n + 1) = game.projectiles.take n ++ [game.projectiles[n]] := by
      rw [List.take_succ, hget]; rfl
    have hdrop : game.projectiles.drop n = game.projectiles[n] :: game.projectiles.drop (n + 1) :=
      List.drop_eq_getElem_cons hlt
    simp only [check_enemy_projectile_collisions_loop, hget] at h
    by_cases hhit : game.projectiles[n].owner = 1 ∧
        circle_collision game.projectiles[n].shape
          (lib.sprite_collision_circle game.player.player_sprite) = true
    · simp only [hhit, and_self, if_true] at h
      cases h1 : handle_projectile_collision game n with
      | none => simp [h1] at h
      | some game1 =>
        simp only [h1] at h
        obtain ⟨_, hproj, _, hsprite⟩ := handle_projectile_collision_some game game1 n h1
        have hlen : n ≤ game1.projectiles.length := by
          rw [hproj, List.length_eraseIdx]; simp only [hlt, if_true]; omega
        have hlen' : (List.take n game.projectiles).length = n := by
          rw [List.length_take]; omega
        rw [ih game1 game' hlen h, hsprite, hproj, List.eraseIdx_eq_take_drop_succ,
          List.take_left' hlen', List.drop_left' hlen', htake, List.filter_append]
        simp [hits_player, hhit]
    · simp only [hhit, if_false] at h
      rw [ih game game' (Nat.le_of_lt hlt) h, htake, List.filter_append, hdrop]
      have hkeep : hits_player (lib.sprite_collision_circle game.player.player_sprite)
          game.projectiles[n] = false := by
        simp only [hits_player, Bool.and_eq_false_iff, decide_eq_false_iff_not]
        by_cases ho : game.projectiles[n].owner = 1
        · exact Or.inr (by simpa using fun hc => hhit ⟨ho, hc⟩)
        · exact Or.inl ho
      simp [hkeep]

theorem check_loop_returns (lib : library) (n : Nat) :
    ∀ game : game_data, n ≤ game.projectiles.length →
      (∀ i p, i < n → game.projectiles[i]? = some p →
        hits_player (lib.sprite_collision_circle game.player.player_sprite) p = true →
        i < game.enemies.length) →
      ∃ game', check_enemy_projectile_collisions_loop lib n game = some game' := by
  induction n with
  | zero => intro game _ _; exact ⟨game, rfl⟩
  | succ n ih =>
    intro game hn hsafe
    have hlt : n < game.projectiles.length := hn
    have hget : game.projectiles[n]? = some game.projectiles[n] := List.getElem?_eq_getElem hlt
    simp only [check_enemy_projectile_collisions_loop, hget]
    by_cases hhit : game.projectiles[n].owner = 1 ∧
        circle_collision game.projectiles[n].shape
          (lib.sprite_collision_circle game.player.player_sprite) = true
    · simp only [hhit, and_self, if_true]
      have hen : n < game.enemies.length :=
        hsafe n _ (Nat.lt_succ_self n) hget (by simp [hits_player, hhit])
      obtain ⟨game1, h1⟩ := handle_projectile_collision_returns game n hlt (fun _ => hen)
      obtain ⟨_, hproj, henem, hsprite⟩ := handle_projectile_collision_some game game1 n h1
      simp only [h1]
      apply ih game1
      · rw [hproj, List.length_eraseIdx]; simp only [hlt, if_true]; omega
      · intro i p hi hp hh
        rw [hproj, List.getElem?_eraseIdx_of_lt _ _ _ hi] at hp
        rw [hsprite] at hh
        rw [henem]
        exact hsafe i p (Nat.lt_succ_of_lt hi) hp hh
    · simp only [hhit, if_false]
      exact ih game (Nat.le_of_lt hlt)
        (fun i p hi hp hh => hsafe i p (Nat.lt_succ_of_lt hi) hp hh)

theorem unsigned_elapsed (now : Nat) (last : Int) (h0 : 0 ≤ last) (h1 : last ≤ now)
    (h2 : now < 2 ^ 31) :
    ((unsigned_sub now (to_unsigned last) : Nat) : Int) = now - last := by
  obtain ⟨k, rfl⟩ := Int.eq_ofNat_of_zero_le h0
  have hk : k ≤ now := by exact_mod_cast h1
  have h2' : now < 2147483648 := by simpa using h2
  have hu : to_unsigned (k : Int) = k := by
    unfold to_unsigned
    have : ((k : Int) % 2 ^ 32) = ((k % 4294967296 : Nat) : Int) := by norm_num
    rw [this, Int.toNat_ofNat]
    omega
  rw [hu]
  unfold unsigned_sub
  norm_num
  omega

theorem to_signed_small (now : Nat) (h2 : now < 2 ^ 31) : to_signed now = now := by
  have hmod : now % 2 ^ 32 = now := Nat.mod_eq_of_lt (lt_trans h2 (by norm_num))
  unfold to_signed
  rw [hmod, if_pos h2]

theorem is_safe_distance_from_player_iff (position : point_2d) (player_sprite : sprite)
    (min_distance : ℚ) :
    is_safe_distance_from_player position player_sprite min_distance = true ↔
      200 ^ 2 < point_point_distance_sq position (sprite_center_point player_sprite) := by
  simp [is_safe_distance_from_player]

theorem is_safe_distance_from_enemies_iff (position : point_2d) (enemies : List enemy_data)
    (min_distance : ℚ) :
    is_safe_distance_from_enemies position enemies min_distance = true ↔
      ∀ e ∈ enemies,
        200 ^ 2 < point_point_distance_sq position (sprite_center_point e.enemy_sprite) := by
  induction enemies generalizing min_distance with
  | nil => simp [is_safe_distance_from_enemies]
  | cons e rest ih =>
    unfold is_safe_distance_from_enemies
    by_cases h : point_point_distance_sq position (sprite_center_point e.enemy_sprite) ≤ 200 ^ 2
    · simp only [h, if_true, List.mem_cons, forall_eq_or_imp]
      constructor
      · intro hf; cases hf
      · intro hall; exact absurd hall.1 (not_lt.mpr h)
    · simp only [h, if_false, List.mem_cons, forall_eq_or_imp, ih]
      exact ⟨fun hall => ⟨lt_of_not_ge h, hall⟩, fun hall => hall.2⟩

theorem new_enemy_position_some (player : player_data) (enemies : List enemy_data)
    (rolls : List (Nat × Nat)) (position : point_2d)
    (h : new_enemy_position player enemies rolls = some position) :
    (∃ roll ∈ rolls,
      position = { x := rnd screen_width roll.1, y := rnd screen_height roll.2 }) ∧
    is_safe_distance_from_player position player.player_sprite 200 = true ∧
    is_safe_distance_from_enemies position enemies 200 = true := by
  induction rolls with
  | nil => simp [new_enemy_position] at h
  | cons roll rest ih =>
    simp only [new_enemy_position] at h
    split_ifs at h with hbad
    · obtain ⟨⟨r, hr, hp⟩, h2, h3⟩ := ih h
      exact ⟨⟨r, List.mem_cons_of_mem _ hr, hp⟩, h2, h3⟩
    · simp only [Option.some.injEq] at h
      subst h
      simp only [Bool.or_eq_true, Bool.not_eq_true', not_or, Bool.not_eq_false] at hbad
      exact ⟨⟨roll, List.mem_cons_self _ _, rfl⟩, hbad.1, hbad.2⟩

theorem new_enemy_position_of_safe (player : player_data) (enemies : List enemy_data)
    (rolls : List (Nat × Nat))
    (h : ∃ roll ∈ rolls,
      is_safe_distance_from_player
          { x := rnd screen_width roll.1, y := rnd screen_height roll.2 }
          player.player_sprite 200 = true ∧
      is_safe_distance_from_enemies
          { x := rnd screen_width roll.1, y := rnd screen_height roll.2 } enemies 200 = true) :
    ∃ position, new_enemy_position player enemies rolls = some position := by
  induction rolls with
  | nil => obtain ⟨r, hr, _⟩ := h; cases hr
  | cons roll rest ih =>
    simp only [new_enemy_position]
    split_ifs with hbad
    · apply ih
      obtain ⟨r, hr, h1, h2⟩ := h
      rcases List.mem_cons.mp hr with rfl | hr'
      · simp [h1, h2] at hbad
      · exact ⟨r, hr', h1, h2⟩
    · exact ⟨_, rfl⟩

theorem grid_axis (x : Nat) (hx : x < 800) :
    ((x : ℚ) - 133) ^ 2 ≤ 134 ^ 2 ∨ ((x : ℚ) - 400) ^ 2 ≤ 134 ^ 2 ∨
      ((x : ℚ) - 667) ^ 2 ≤ 134 ^ 2 := by
  have h0 : (0 : ℚ) ≤ (x : ℚ) := Nat.cast_nonneg x
  have h1 : (x : ℚ) ≤ 799 := by exact_mod_cast Nat.le_of_lt_succ hx
  by_cases ha : (x : ℚ) ≤ 267
  · exact Or.inl (sq_le_sq' (by linarith) (by linarith))
  · by_cases hb : (x : ℚ) ≤ 534
    · exact Or.inr (Or.inl (sq_le_sq' (by linarith) (by linarith)))
    · exact Or.inr (Or.inr (sq_le_sq' (by linarith) (by linarith)))

theorem crowded_window (x y : Nat) (hx : x < 800) (hy : y < 800) :
    ∃ e ∈ crowded_enemies,
      point_point_distance_sq { x := x, y := y } (sprite_center_point e.enemy_sprite)
        ≤ 200 ^ 2 := by
  have hcell : ∀ cx cy : ℚ, (cx = 101 ∨ cx = 368 ∨ cx = 635) → (cy = 101 ∨ cy = 368 ∨ cy = 635) →
      ((x : ℚ) - (cx + 32)) ^ 2 ≤ 134 ^ 2 → ((y : ℚ) - (cy + 32)) ^ 2 ≤ 134 ^ 2 →
      ∃ e ∈ crowded_enemies,
        point_point_distance_sq { x := x, y := y } (sprite_center_point e.enemy_sprite)
          ≤ 200 ^ 2 := by
    intro cx cy hcx hcy h1 h2
    refine ⟨sample_enemy .ENEMY_TYPE1 cx cy 100 0.05, ?_, ?_⟩
    · simp only [crowded_enemies, List.mem_flatMap, List.mem_map, List.mem_cons,
        List.mem_singleton, List.not_mem_nil, or_false]
      exact ⟨cx, hcx, cy, hcy, rfl⟩
    · simp only [point_point_distance_sq, sprite_center_point, sample_enemy, sample_sprite]
      rw [tdiv_sixty_four]
      push_cast
      nlinarith
  rcases grid_axis x hx with h1 | h1 | h1 <;> rcases grid_axis y hy with h2 | h2 | h2
  · exact hcell 101 101 (by simp) (by simp) (by norm_num; exact h1) (by norm_num; exact h2)
  · exact hcell 101 368 (by simp) (by simp) (by norm_num; exact h1) (by norm_num; exact h2)
  · exact hcell 101 635 (by simp) (by simp) (by norm_num; exact h1) (by norm_num; exact h2)
  · exact hcell 368 101 (by simp) (by simp) (by norm_num; exact h1) (by norm_num; exact h2)
  · exact hcell 368 368 (by simp) (by simp) (by norm_num; exact h1) (by norm_num; exact h2)
  · exact hcell 368 635 (by simp) (by simp) (by norm_num; exact h1) (by norm_num; exact h2)
  · exact hcell 635 101 (by simp) (by simp) (by norm_num; exact h1) (by norm_num; exact h2)
  · exact hcell 635 368 (by simp) (by simp) (by norm_num; exact h1) (by norm_num; exact h2)
  · exact hcell 635 635 (by simp) (by simp) (by norm_num; exact h1) (by norm_num; exact h2)

theorem update_enemy_boundaries_one_axis (enemy : enemy_data)
    (h : ((¬ (-1500 ≤ enemy.new_x ∧ enemy.new_x ≤ 1500)) ∧
          (-1500 ≤ enemy.new_y ∧ enemy.new_y ≤ 1500)) ∨
        ((-1500 ≤ enemy.new_x ∧ enemy.new_x ≤ 1500) ∧
          ¬ (-1500 ≤ enemy.new_y ∧ enemy.new_y ≤ 1500))) :
    (update_enemy_boundaries enemy).enemy_sprite.rotation = enemy.enemy_sprite.rotation + 180 := by
  have cx : (enemy.new_x ≥ ((MIN_X : Int) : ℚ) ∧ enemy.new_x ≤ ((MAX_X : Int) : ℚ)) ↔
      (-1500 ≤ enemy.new_x ∧ enemy.new_x ≤ 1500) := by
    simp [MIN_X, MAX_X]
  have cy : (enemy.new_y ≥ ((MIN_Y : Int) : ℚ) ∧ enemy.new_y ≤ ((MAX_Y : Int) : ℚ)) ↔
      (-1500 ≤ enemy.new_y ∧ enemy.new_y ≤ 1500) := by
    simp [MIN_Y, MAX_Y]
  unfold update_enemy_boundaries
  rcases h with ⟨hx, hy⟩ | ⟨hx, hy⟩
  · rw [if_neg (fun hc => hx (cx.mp hc))]
    simp only [sprite_set_rotation]
    rw [if_pos (cy.mpr hy)]
    rfl
  · rw [if_pos (cx.mpr hx)]
    simp only [sprite_set_x]
    rw [if_neg (fun hc => hy (cy.mp hc))]
    rfl

theorem unsigned_sub_of_le (now last : Nat) (h1 : last ≤ now) (h2 : now < 2 ^ 32) :
    unsigned_sub now last = now - last := by
  have h2' : now < 4294967296 := by simpa using h2
  unfold unsigned_sub
  norm_num
  omega

theorem end_loop_snd_of_some (es : List enemy_data) (m : damage_map) (k : enemy_kind) (v : ℚ)
    (h : m k = some v) : (end_loop es m).2 k = some v := by
  induction es generalizing m with
  | nil => exact h
  | cons e rest ih =>
    simp only [end_loop]
    apply ih
    unfold damage_map.index
    cases he : m e.kind with
    | some w => exact h
    | none =>
      have hk : k ≠ e.kind := fun hk => by rw [hk, he] at h; cases h
      simp [damage_map.assign, hk, h]

theorem end_loop_snd_of_absent (es : List enemy_data) (m : damage_map) (k : enemy_kind)
    (h : m k = none) (hex : ∃ e ∈ es, e.kind = k) : (end_loop es m).2 k = some 0 := by
  induction es generalizing m with
  | nil => obtain ⟨e, he, _⟩ := hex; cases he
  | cons e rest ih =>
    simp only [end_loop]
    by_cases hk : e.kind = k
    · apply end_loop_snd_of_some
      simp [damage_map.index, hk, h, damage_map.assign]
    · apply ih
      · unfold damage_map.index
        cases he : m e.kind with
        | some w => exact h
        | none =>
          have hk' : k ≠ e.kind := fun hc => hk hc.symm
          simp [damage_map.assign, hk', h]
      · obtain ⟨e1, he1, hk1⟩ := hex
        rcases List.mem_cons.mp he1 with rfl | he1'
        · exact absurd hk1 hk
        · exact ⟨e1, he1', hk1⟩

theorem play_kill_streak_sound_eq (eng : engine) (game : game_data) :
    play_kill_streak_sound eng game =
      if game.player.kill_count = 10 then activate_ultimate_kill_streak eng game else game := by
  unfold play_kill_streak_sound killStreaks
  split_ifs <;> simp_all

theorem handle_enemy_collision_effect (eng : engine) (game : game_data) (j i : Nat)
    (hj : j < game.enemies.length) (hi : i < game.projectiles.length) :
    ∃ game', handle_enemy_collision eng game j i = some game' ∧
      ((game'.enemies.length = game.enemies.length ∧ game'.projectiles = game.projectiles ∧
          game'.explosions.length = game.explosions.length ∧
          game'.player.kill_count = game.player.kill_count) ∨
        (game'.enemies.length + 1 = game.enemies.length ∧
          game'.projectiles = game.projectiles.eraseIdx i ∧
          game'.explosions.length = game.explosions.length + 1 ∧
          game'.player.kill_count = game.player.kill_count + 1)) := by
  have hget : game.enemies[j]? = some game.enemies[j] := List.getElem?_eq_getElem hj
  by_cases hkill : game.enemies[j].health - game.player.damage ≤ 0
  · by_cases h10 : game.player.kill_count + 1 = 10
    · simp [handle_enemy_collision, hget, hkill, play_kill_streak_sound_eq, add_explosion,
        activate_ultimate_kill_streak, update_player_attributes, activate_loop_fst, h10, hi,
        eraseIdx_set_same, List.length_eraseIdx, hj]
      omega
    · simp [handle_enemy_collision, hget, hkill, play_kill_streak_sound_eq, add_explosion,
        h10, hi, eraseIdx_set_same, List.length_eraseIdx, hj]
      omega
  · simp [handle_enemy_collision, hget, hkill]

theorem check_player_projectile_enemies_effect (lib : library) (eng : engine) (i n : Nat) :
    ∀ game : game_data, n ≤ game.enemies.length → i < game.projectiles.length →
      ∃ game', check_player_projectile_enemies lib eng i n game = some game' ∧
        ((game'.enemies.length = game.enemies.length ∧ game'.projectiles = game.projectiles ∧
            game'.explosions.length = game.explosions.length ∧
            game'.player.kill_count = game.player.kill_count) ∨
          (game'.enemies.length + 1 = game.enemies.length ∧
            game'.projectiles = game.projectiles.eraseIdx i ∧
            game'.explosions.length = game.explosions.length + 1 ∧
            game'.player.kill_count = game.player.kill_count + 1)) := by
  induction n with
  | zero =>
    intro game _ _
    exact ⟨game, rfl, Or.inl ⟨rfl, rfl, rfl, rfl⟩⟩
  | succ n ih =>
    intro game hn hi
    have hlt : n < game.enemies.length := hn
    have hp : game.projectiles[i]? = some game.projectiles[i] := List.getElem?_eq_getElem hi
    have he : game.enemies[n]? = some game.enemies[n] := List.getElem?_eq_getElem hlt
    simp only [check_player_projectile_enemies, hp, he]
    split_ifs
    · exact handle_enemy_collision_effect eng game n i hlt hi
    · exact ih game (Nat.le_of_lt hlt) hi

theorem filter_eraseIdx_of_neg {α : Type} (p : α → Bool) (l : List α) (n : Nat) (a : α)
    (h : l[n]? = some a) (hp : p a = false) : (l.eraseIdx n).filter p = l.filter p := by
  induction l generalizing n with
  | nil => simp at h
  | cons x rest ih =>
    cases n with
    | zero =>
      simp only [List.getElem?_cons_zero, Option.some.injEq] at h
      subst h
      simp [List.eraseIdx, List.filter, hp]
    | succ m =>
      simp only [List.getElem?_cons_succ] at h
      simp only [List.eraseIdx, List.filter, ih m h]

theorem check_player_projectile_loop_effect (lib : library) (eng : engine) (n : Nat) :
    ∀ game : game_data, n ≤ game.projectiles.length →
      ∃ (game' : game_data) (k : Nat),
        check_player_projectile_collisions_loop lib eng n game = some game' ∧
        game'.enemies.length + k = game.enemies.length ∧
        game'.projectiles.length + k = game.projectiles.length ∧
        game'.explosions.length = game.explosions.length + k ∧
        game'.player.kill_count = game.player.kill_count + k ∧
        game'.projectiles.Sublist game.projectiles ∧
        game'.projectiles.filter (fun p => decide (p.owner ≠ 0)) =
          game.projectiles.filter (fun p => decide (p.owner ≠ 0)) := by
  induction n with
  | zero =>
    intro game _
    exact ⟨game, 0, rfl, rfl, rfl, rfl, by simp, List.Sublist.refl _, rfl⟩
  | succ n ih =>
    intro game hn
    have hlt : n < game.projectiles.length := hn
    have hp : game.projectiles[n]? = some game.projectiles[n] := List.getElem?_eq_getElem hlt
    simp only [check_player_projectile_collisions_loop, hp]
    by_cases ho : game.projectiles[n].owner = 0
    · simp only [ho, if_true]
      obtain ⟨game1, h1, heff⟩ :=
        check_player_projectile_enemies_effect lib eng n game.enemies.length game
          (Nat.le_refl _) hlt
      simp only [h1]
      rcases heff with ⟨e1, e2, e3, e4⟩ | ⟨e1, e2, e3, e4⟩
      · obtain ⟨game', k, hr, r1, r2, r3, r4, r5, r6⟩ :=
          ih game1 (by rw [e2]; exact Nat.le_of_lt hlt)
        refine ⟨game', k, hr, ?_, ?_, ?_, ?_, ?_, ?_⟩
        · omega
        · rw [r2, e2]
        · omega
        · rw [r4, e4]
        · rw [← e2]; exact r5
        · rw [r6, e2]
      · have hlen : game1.projectiles.length + 1 = game.projectiles.length := by
          rw [e2, List.length_eraseIdx]; simp only [hlt, if_true]; omega
        obtain ⟨game', k, hr, r1, r2, r3, r4, r5, r6⟩ := ih game1 (by omega)
        refine ⟨game', k + 1, hr, ?_, ?_, ?_, ?_, ?_, ?_⟩
        · omega
        · omega
        · omega
        · rw [r4, e4]; push_cast; ring
        · exact r5.trans (e2 ▸ List.eraseIdx_sublist _ _)
        · rw [r6, e2]
          exact filter_eraseIdx_of_neg _ _ n _ hp (by simp [ho])
    · simp only [ho, if_false]
      exact ih game (Nat.le_of_lt hlt)

theorem play_kill_streak_sound_counted_fst (eng : engine) (game : game_data) :
    (play_kill_streak_sound_counted eng game).1 = play_kill_streak_sound eng game := by
  unfold play_kill_streak_sound_counted play_kill_streak_sound
  cases killStreaks game.player.kill_count with
  | none => rfl
  | some sound =>
    simp only
    split_ifs <;> rfl

theorem handle_enemy_collision_counted_fst (eng : engine) (game : game_data) (j i : Nat) :
    (handle_enemy_collision_counted eng game j i).map Prod.fst =
      handle_enemy_collision eng game j i := by
  unfold handle_enemy_collision_counted handle_enemy_collision
  cases game.enemies[j]? with
  | none => rfl
  | some enemy0 =>
    simp only [← play_kill_streak_sound_counted_fst]
    split_ifs <;> rfl

theorem handle_enemy_collision_counted_effect (eng : engine) (game game' : game_data)
    (j i n : Nat) (h : handle_enemy_collision_counted eng game j i = some (game', n)) :
    (game'.player.kill_count = game.player.kill_count ∧
        game'.is_kill_streak_active = game.is_kill_streak_active ∧ n = 0) ∨
      (game'.player.kill_count = game.player.kill_count + 1 ∧
        game.player.kill_count + 1 ≠ 10 ∧
        game'.is_kill_streak_active = game.is_kill_streak_active ∧ n = 0) ∨
      (game.player.kill_count = 9 ∧ game'.player.kill_count = 10 ∧
        game'.is_kill_streak_active = true ∧ n = 1) := by
  have hplay : ∀ g : game_data, play_kill_streak_sound_counted eng g =
      if g.player.kill_count = 10 then (activate_ultimate_kill_streak eng g, 1) else (g, 0) := by
    intro g
    unfold play_kill_streak_sound_counted killStreaks
    split_ifs <;> simp_all
  unfold handle_enemy_collision_counted at h
  cases he : game.enemies[j]? with
  | none => simp [he] at h
  | some enemy0 =>
    simp only [he, hplay] at h
    by_cases hkill : enemy0.health - game.player.damage ≤ 0
    · simp only [hkill, if_true, add_explosion] at h
      by_cases h10 : game.player.kill_count + 1 = 10
      · have h9 : game.player.kill_count = 9 := by omega
        simp only [h10, if_true, activate_ultimate_kill_streak, update_player_attributes,
          Bool.true_eq_false, and_false, if_false] at h
        split_ifs at h
        simp only [Option.some.injEq, Prod.mk.injEq] at h
        obtain ⟨hg, hn⟩ := h
        subst hg
        exact Or.inr (Or.inr ⟨h9, rfl, rfl, hn.symm⟩)
      · simp only [h10, if_false, false_and] at h
        split_ifs at h
        simp only [Option.some.injEq, Prod.mk.injEq] at h
        obtain ⟨hg, hn⟩ := h
        subst hg
        exact Or.inr (Or.inl ⟨rfl, h10, rfl, hn.symm⟩)
    · simp only [hkill, if_false, Option.some.injEq, Prod.mk.injEq] at h
      obtain ⟨hg, hn⟩ := h
      subst hg
      exact Or.inl ⟨rfl, rfl, hn.symm⟩

theorem frame_step_effect (game game' : game_data) (k : Nat) (h : frame_step game k game') :
    (game'.player.kill_count = game.player.kill_count ∧
        (game'.is_kill_streak_active = game.is_kill_streak_active ∨
          game'.is_kill_streak_active = false) ∧ k = 0) ∨
      (game'.player.kill_count = game.player.kill_count + 1 ∧
        game.player.kill_count + 1 ≠ 10 ∧
        game'.is_kill_streak_active = game.is_kill_streak_active ∧ k = 0) ∨
      (game.player.kill_count = 9 ∧ game'.player.kill_count = 10 ∧
        game'.is_kill_streak_active = true ∧ k = 1) := by
  cases h with
  | hit eng _ _ j i n hhit =>
    rcases handle_enemy_collision_counted_effect eng game game' j i k hhit with
      ⟨h1, h2, h3⟩ | h | h
    · exact Or.inl ⟨h1, Or.inl h2, h3⟩
    · exact Or.inr (Or.inl h)
    · exact Or.inr (Or.inr h)
  | expire eng =>
    refine Or.inl ⟨?_, ?_, rfl⟩
    · unfold update_kill_streaks
      split_ifs <;> rfl
    · unfold update_kill_streaks
      split_ifs
      · exact Or.inr rfl
      · exact Or.inl rfl
  | other _ _ h1 h2 => exact Or.inl ⟨h1, Or.inl h2, rfl⟩

theorem frames_after_end (game later : game_data) (m : Nat) (h : frames game m later)
    (hkill : 10 ≤ game.player.kill_count) (hflag : game.is_kill_streak_active = false) :
    10 ≤ later.player.kill_count ∧ later.is_kill_streak_active = false ∧ m = 0 := by
  induction h with
  | nil => exact ⟨hkill, hflag, rfl⟩
  | cons game1 game2 n k _ hstep ih =>
    obtain ⟨i1, i2, i3⟩ := ih
    rcases frame_step_effect game1 game2 k hstep with ⟨h1, h2, h3⟩ | ⟨h1, _, h3, h4⟩ |
      ⟨h1, _, _, _⟩
    · refine ⟨by omega, ?_, by omega⟩
      rcases h2 with h2 | h2
      · rw [h2]; exact i2
      · exact h2
    · exact ⟨by omega, by rw [h3]; exact i2, by omega⟩
    · omega

theorem play_kill_streak_sound_counted_eq (eng : engine) (g : game_data) :
    play_kill_streak_sound_counted eng g =
      if g.player.kill_count = 10 then (activate_ultimate_kill_streak eng g, 1) else (g, 0) := by
  unfold play_kill_streak_sound_counted killStreaks
  split_ifs <;> simp_all

/-- A call of `handle_enemy_collision` that does not take `kill_count` to 10
makes no activation and writes neither `original_ammo_state`, nor the
snapshot, nor the flag. -/
theorem handle_enemy_collision_counted_quiet (eng : engine) (game game' : game_data)
    (j i n : Nat) (h : handle_enemy_collision_counted eng game j i = some (game', n))
    (h10 : game.player.kill_count + 1 ≠ 10) :
    n = 0 ∧ game'.player.original_ammo_state = game.player.original_ammo_state ∧
    game'.original_damage_values = game.original_damage_values ∧
    game'.is_kill_streak_active = game.is_kill_streak_active := by
  unfold handle_enemy_collision_counted at h
  cases he : game.enemies[j]? with
  | none => simp [he] at h
  | some enemy0 =>
    simp only [he, play_kill_streak_sound_counted_eq] at h
    by_cases hkill : enemy0.health - game.player.damage ≤ 0
    · simp only [hkill, if_true, add_explosion, h10, if_false, false_and] at h
      split_ifs at h
      simp only [Option.some.injEq, Prod.mk.injEq] at h
      obtain ⟨hg, hn⟩ := h
      subst hg
      exact ⟨hn.symm, rfl, rfl, rfl⟩
    · simp only [hkill, if_false, Option.some.injEq, Prod.mk.injEq] at h
      obtain ⟨hg, hn⟩ := h
      subst hg
      exact ⟨hn.symm, rfl, rfl, rfl⟩

/-- A lethal hit at valid indices returns and counts one kill. -/
theorem handle_enemy_collision_counted_kill (eng : engine) (game : game_data) (j i : Nat)
    (enemy0 : enemy_data) (he : game.enemies[j]? = some enemy0)
    (hkill : enemy0.health - game.player.damage ≤ 0) (hi : i < game.projectiles.length) :
    ∃ game' n, handle_enemy_collision_counted eng game j i = some (game', n) ∧
      game'.player.kill_count = game.player.kill_count + 1 := by
  unfold handle_enemy_collision_counted
  simp only [he, play_kill_streak_sound_counted_eq, hkill, if_true, add_explosion]
  by_cases h10 : game.player.kill_count + 1 = 10
  · simp only [h10, if_true, activate_ultimate_kill_streak, update_player_attributes,
      Bool.true_eq_false, and_false, if_false, hi]
    exact ⟨_, _, rfl, rfl⟩
  · simp only [h10, if_false, false_and, hi, if_true]
    exact ⟨_, _, rfl, rfl⟩

/-- Along a run from a new game the flag is set only once ten kills are
counted. -/
theorem frames_flag_needs_ten (game0 game : game_data) (n : Nat)
    (hkill : game0.player.kill_count = 0) (hflag : game0.is_kill_streak_active = false)
    (hrun : frames game0 n game) :
    0 ≤ game.player.kill_count ∧
    (game.player.kill_count < 10 → game.is_kill_streak_active = false) := by
  induction hrun with
  | nil => exact ⟨by omega, fun _ => hflag⟩
  | cons game1 game2 n k _ hstep ih =>
    obtain ⟨i1, i2⟩ := ih
    rcases frame_step_effect game1 game2 k hstep with ⟨h1, h2, _⟩ | ⟨h1, _, h3, _⟩ |
      ⟨_, h2, _, _⟩
    · refine ⟨by omega, fun hlt => ?_⟩
      rcases h2 with h2 | h2
      · rw [h2]; exact i2 (by omega)
      · exact h2
    · exact ⟨by omega, fun hlt => by rw [h3]; exact i2 (by omega)⟩
    · exact ⟨by omega, fun hlt => by omega⟩

/-- Nine kills in a row from `streak_game 0`, none of them an activation. -/
theorem frames_to_streak (k : Nat) (hk : k ≤ 9) : frames (streak_game 0) 0 (streak_game k) := by
  induction k with
  | zero => exact frames.nil _
  | succ k ih =>
    have hrun := ih (by omega)
    obtain ⟨game', n, hhit, hcount⟩ := handle_enemy_collision_counted_kill sample_engine
      (streak_game k) 0 0 (sample_enemy .ENEMY_TYPE1 100 200 100 0.05) rfl
      (by show (100 : Int) - 100 ≤ 0; decide) (by show 0 < 1; decide)
    have hk1 : (streak_game k).player.kill_count = k := rfl
    have hquiet := handle_enemy_collision_counted_quiet sample_engine (streak_game k) game' 0 0 n
      hhit (by rw [hk1]; omega)
    obtain ⟨hn, _, _, hflag⟩ := hquiet
    subst hn
    have h1 : frames (streak_game 0) (0 + 0) game' :=
      frames.cons _ _ _ _ _ hrun (frame_step.hit sample_engine _ _ 0 0 0 hhit)
    have h2 : frame_step game' 0 (streak_game ((k + 1 : Nat) : Int)) := by
      refine frame_step.other _ _ ?_ ?_
      · rw [hcount, hk1]
        show ((k + 1 : Nat) : Int) = (k : Int) + 1
        push_cast
        rfl
      · rw [hflag]
        rfl
    exact frames.cons _ _ _ _ _ h1 h2

/-- A run from a new game that reaches `veteran_game`: nine kills, the tenth
kill with its one activation, then any step that brings in a new enemy and a
new projectile. -/
theorem frames_to_veteran : frames (streak_game 0) 1 veteran_game := by
  have hrun : frames (streak_game 0) 0 (streak_game 9) := frames_to_streak 9 (by omega)
  obtain ⟨game', n, hhit, hcount⟩ := handle_enemy_collision_counted_kill sample_engine
    (streak_game 9) 0 0 (sample_enemy .ENEMY_TYPE1 100 200 100 0.05) rfl (by decide)
    (by decide)
  have hk9 : (streak_game 9).player.kill_count = 9 := rfl
  rcases handle_enemy_collision_counted_effect sample_engine _ game' 0 0 n hhit with
    ⟨h1, _, _⟩ | ⟨_, h2, _, _⟩ | ⟨_, h2, h3, h4⟩
  · rw [hcount] at h1
    omega
  · rw [hk9] at h2
    omega
  · subst h4
    have h1 : frames (streak_game 0) (0 + 1) game' :=
      frames.cons _ _ _ _ _ hrun (frame_step.hit sample_engine _ _ 0 0 1 hhit)
    have hstep : frame_step game' 0 veteran_game := by
      refine frame_step.other _ _ ?_ ?_
      · rw [h2]
        rfl
      · rw [h3]
        rfl
    exact frames.cons _ _ _ _ _ h1 hstep

/-! ## Player projectile against enemy -/

/-- C1: a lethal hit (`enemies[j].health - player.damage ≤ 0`) at valid
indices returns a state in which exactly the enemy at index `j` is gone (the
others stay in order; their damage values are zeroed only when this kill is
the tenth), exactly one explosion has been appended at that enemy's
position, `kill_count` has grown by exactly 1 and exactly the projectile at
index `i` is gone. -/
theorem handle_enemy_collision_lethal (eng : engine) (game : game_data) (j i : Nat)
    (hj : j < game.enemies.length) (hi : i < game.projectiles.length)
    (hkill : (game.enemies.get ⟨j, hj⟩).health - game.player.damage ≤ 0) :
    ∃ game' explosion,
      handle_enemy_collision eng game j i = some game' ∧
      (game.player.kill_count + 1 ≠ 10 → game'.enemies = game.enemies.eraseIdx j) ∧
      (game.player.kill_count + 1 = 10 →
        game'.enemies = (game.enemies.eraseIdx j).map (fun e => { e with damage_value := 0 })) ∧
      game'.enemies.length + 1 = game.enemies.length ∧
      game'.explosions = game.explosions ++ [explosion] ∧
      explosion.explosion_sprite.x = (game.enemies.get ⟨j, hj⟩).enemy_sprite.x ∧
      explosion.explosion_sprite.y = (game.enemies.get ⟨j, hj⟩).enemy_sprite.y ∧
      game'.player.kill_count = game.player.kill_count + 1 ∧
      game'.projectiles = game.projectiles.eraseIdx i := by
  have hget : game.enemies[j]? = some (game.enemies.get ⟨j, hj⟩) := by
    simp [List.getElem?_eq_getElem hj]
  simp only [List.get_eq_getElem] at hkill hget ⊢
  by_cases h10 : game.player.kill_count + 1 = 10
  · simp [handle_enemy_collision, hget, hkill, play_kill_streak_sound_eq, add_explosion,
      activate_ultimate_kill_streak, update_player_attributes, activate_loop_fst, h10, hi,
      sprite_set_position, create_sprite, eraseIdx_set_same, List.length_eraseIdx, hj]
    omega
  · simp [handle_enemy_collision, hget, hkill, play_kill_streak_sound_eq, add_explosion,
      h10, hi, sprite_set_position, create_sprite, eraseIdx_set_same, List.length_eraseIdx, hj]
    omega

/-- C1 at the kill scenario of the spec: health 100 against damage 100. -/
theorem handle_enemy_collision_lethal_witness :
    0 < kill_game.enemies.length ∧ 0 < kill_game.projectiles.length ∧
    ∃ game' explosion,
      handle_enemy_collision sample_engine kill_game 0 0 = some game' ∧
      (kill_game.player.kill_count + 1 ≠ 10 → game'.enemies = kill_game.enemies.eraseIdx 0) ∧
      (kill_game.player.kill_count + 1 = 10 →
        game'.enemies = (kill_game.enemies.eraseIdx 0).map (fun e => { e with damage_value := 0 })) ∧
      game'.enemies.length + 1 = kill_game.enemies.length ∧
      game'.explosions = kill_game.explosions ++ [explosion] ∧
      explosion.explosion_sprite.x = (kill_game.enemies.get ⟨0, by decide⟩).enemy_sprite.x ∧
      explosion.explosion_sprite.y = (kill_game.enemies.get ⟨0, by decide⟩).enemy_sprite.y ∧
      game'.player.kill_count = kill_game.player.kill_count + 1 ∧
      game'.projectiles = kill_game.projectiles.eraseIdx 0 :=
  ⟨by decide, by decide,
    handle_enemy_collision_lethal sample_engine kill_game 0 0 (by decide) (by decide) (by decide)⟩

/-- C2: while the kill streak is inactive, a hit on an enemy whose health
exceeds `player.damage` lowers that enemy's health by exactly `player.damage`
and changes nothing else: the projectiles (the one that hit included), the
number and order of enemies, the explosions and the player are as before,
whatever the projectile index. -/
theorem handle_enemy_collision_nonlethal (eng : engine) (game : game_data) (j i : Nat)
    (hinactive : game.is_kill_streak_active = false)
    (hj : j < game.enemies.length)
    (hlive : game.player.damage < (game.enemies.get ⟨j, hj⟩).health) :
    ∃ game',
      handle_enemy_collision eng game j i = some game' ∧
      game'.enemies = game.enemies.set j
        { game.enemies.get ⟨j, hj⟩ with
          health := (game.enemies.get ⟨j, hj⟩).health - game.player.damage } ∧
      game'.enemies.length = game.enemies.length ∧
      game'.projectiles = game.projectiles ∧
      game'.explosions = game.explosions ∧
      game'.player = game.player ∧
      game'.is_kill_streak_active = false := by
  have hget : game.enemies[j]? = some (game.enemies.get ⟨j, hj⟩) := by
    simp [List.getElem?_eq_getElem hj]
  simp only [List.get_eq_getElem] at hlive hget ⊢
  have hnot : ¬ game.enemies[j].health - game.player.damage ≤ 0 := by omega
  simp [handle_enemy_collision, hget, hnot, hinactive]

/-- C2 at an enemy of health 200 hit with damage 100. -/
theorem handle_enemy_collision_nonlethal_witness :
    graze_game.is_kill_streak_active = false ∧
    ∃ game',
      handle_enemy_collision sample_engine graze_game 0 0 = some game' ∧
      game'.enemies = graze_game.enemies.set 0
        { graze_game.enemies.get ⟨0, by decide⟩ with
          health := (graze_game.enemies.get ⟨0, by decide⟩).health - graze_game.player.damage } ∧
      game'.enemies.length = graze_game.enemies.length ∧
      game'.projectiles = graze_game.projectiles ∧
      game'.explosions = graze_game.explosions ∧
      game'.player = graze_game.player ∧
      game'.is_kill_streak_active = false :=
  ⟨rfl, handle_enemy_collision_nonlethal sample_engine graze_game 0 0 rfl (by decide) (by decide)⟩

/-- C3, refuted as stated: with the Ultimate active (the state left by
`activate_ultimate_kill_streak`, damage 500) a hit on an enemy of health 1000
leaves it with health 500, not 1000. -/
theorem buff_hit_changes_health :
    buff_game.is_kill_streak_active = true ∧
    buff_game.enemies.map (fun e => e.health) = [1000] ∧
    (handle_enemy_collision sample_engine buff_game 0 0).map
      (fun game' => game'.enemies.map (fun e => e.health)) = some [500] := by
  refine ⟨rfl, rfl, ?_⟩
  simp [handle_enemy_collision, buff_game, activate_ultimate_kill_streak,
    update_player_attributes, activate_loop, sample_game, sample_enemy]

/-- C3 as amended: with the Ultimate active, a hit on an enemy whose health
exceeds `player.damage` lowers that enemy's health by exactly `player.damage`,
which `activate_ultimate_kill_streak` has set to 500. -/
theorem handle_enemy_collision_buff (eng : engine) (game0 game : game_data) (j i : Nat)
    (hactive : game.is_kill_streak_active = true)
    (hj : j < game.enemies.length)
    (hlive : game.player.damage < (game.enemies.get ⟨j, hj⟩).health) :
    (activate_ultimate_kill_streak eng game0).player.damage = 500 ∧
    ∃ game',
      handle_enemy_collision eng game j i = some game' ∧
      game'.enemies = game.enemies.set j
        { game.enemies.get ⟨j, hj⟩ with
          health := (game.enemies.get ⟨j, hj⟩).health - game.player.damage } ∧
      (game'.enemies[j]?).map (fun e => e.health) =
        some ((game.enemies.get ⟨j, hj⟩).health - game.player.damage) ∧
      game'.is_kill_streak_active = true := by
  have hget : game.enemies[j]? = some (game.enemies.get ⟨j, hj⟩) := by
    simp [List.getElem?_eq_getElem hj]
  simp only [List.get_eq_getElem] at hlive hget ⊢
  have hnot : ¬ game.enemies[j].health - game.player.damage ≤ 0 := by omega
  refine ⟨rfl, ?_⟩
  simp [handle_enemy_collision, hget, hnot, hactive, hj]

/-- C3 as amended, at the enemy of health 1000 hit during the buff. -/
theorem handle_enemy_collision_buff_witness :
    buff_game.is_kill_streak_active = true ∧
    (activate_ultimate_kill_streak sample_engine sample_game).player.damage = 500 ∧
    ∃ game',
      handle_enemy_collision sample_engine buff_game 0 0 = some game' ∧
      game'.enemies = buff_game.enemies.set 0
        { buff_game.enemies.get ⟨0, by decide⟩ with
          health := (buff_game.enemies.get ⟨0, by decide⟩).health - buff_game.player.damage } ∧
      (game'.enemies[0]?).map (fun e => e.health) =
        some ((buff_game.enemies.get ⟨0, by decide⟩).health - buff_game.player.damage) ∧
      game'.is_kill_streak_active = true :=
  ⟨rfl, handle_enemy_collision_buff sample_engine sample_game buff_game 0 0 rfl (by decide)
    (by decide)⟩

/-- C4: with nine kills counted and the kill streak inactive, a lethal hit
activates the Ultimate: the flag is set, the player has damage 500, 1000
rockets and boost 10, `original_ammo_state` holds the rocket count from before
the hit, and every enemy left in the list has damage value 0. -/
theorem handle_enemy_collision_tenth_kill (eng : engine) (game : game_data) (j i : Nat)
    (hcount : game.player.kill_count = 9)
    (hinactive : game.is_kill_streak_active = false)
    (hj : j < game.enemies.length) (hi : i < game.projectiles.length)
    (hkill : (game.enemies.get ⟨j, hj⟩).health - game.player.damage ≤ 0) :
    ∃ game',
      handle_enemy_collision eng game j i = some game' ∧
      game'.player.kill_count = 10 ∧
      game'.is_kill_streak_active = true ∧
      game'.player.damage = 500 ∧
      game'.player.rocket_count = 1000 ∧
      game'.player.player_boost = 10 ∧
      game'.player.original_ammo_state = game.player.rocket_count ∧
      ∀ e ∈ game'.enemies, e.damage_value = 0 := by
  have hget : game.enemies[j]? = some (game.enemies.get ⟨j, hj⟩) := by
    simp [List.getElem?_eq_getElem hj]
  simp only [List.get_eq_getElem] at hkill hget ⊢
  simp [handle_enemy_collision, hget, hkill, play_kill_streak_sound_eq, add_explosion,
    activate_ultimate_kill_streak, update_player_attributes, activate_loop_fst, hcount, hi,
    hinactive]

/-- C4 at a tenth kill that leaves one other enemy alive. -/
theorem handle_enemy_collision_tenth_kill_witness :
    ninth_kill_game.player.kill_count = 9 ∧
    ninth_kill_game.is_kill_streak_active = false ∧
    ∃ game',
      handle_enemy_collision sample_engine ninth_kill_game 0 0 = some game' ∧
      game'.player.kill_count = 10 ∧
      game'.is_kill_streak_active = true ∧
      game'.player.damage = 500 ∧
      game'.player.rocket_count = 1000 ∧
      game'.player.player_boost = 10 ∧
      game'.player.original_ammo_state = ninth_kill_game.player.rocket_count ∧
      ∀ e ∈ game'.enemies, e.damage_value = 0 :=
  ⟨rfl, rfl, handle_enemy_collision_tenth_kill sample_engine ninth_kill_game 0 0 rfl rfl
    (by decide) (by decide) (by decide)⟩

/-! ## The snapshot map -/

/-- C5, refuted as stated: two enemies of one kind with damage values 1 and 2
share one slot of the snapshot map, so after activation and end both carry 2. -/
theorem restore_not_exact_for_mixed_kind :
    mixed_game.enemies.map (fun e => e.damage_value) = [1, 2] ∧
    (end_ultimate_kill_streak sample_engine
        (activate_ultimate_kill_streak sample_engine mixed_game)).enemies.map
      (fun e => e.damage_value) = [2, 2] := by
  refine ⟨rfl, ?_⟩
  simp [end_ultimate_kill_streak, activate_ultimate_kill_streak, update_player_attributes,
    activate_loop, end_loop, damage_map.index, damage_map.assign, mixed_game, sample_game,
    sample_enemy]

/-- C5 as amended: when enemies of one kind carry one damage value at
activation, ending the buff in any later state that still holds the snapshot
gives every enemy whose kind was alive at activation the damage value that
kind had immediately before activation; ending right after activating gives
back the enemy list unchanged. -/
theorem restore_round_trip (eng eng' : engine) (game later : game_data)
    (hsame : same_kind_same_damage game.enemies)
    (hmap : later.original_damage_values =
      (activate_ultimate_kill_streak eng game).original_damage_values) :
    (end_ultimate_kill_streak eng' later).enemies.length = later.enemies.length ∧
    (∀ e0 ∈ game.enemies, ∀ e' ∈ (end_ultimate_kill_streak eng' later).enemies,
      e'.kind = e0.kind → e'.damage_value = e0.damage_value) ∧
    (end_ultimate_kill_streak eng' (activate_ultimate_kill_streak eng game)).enemies =
      game.enemies := by
  have hkey : ∀ e0 ∈ game.enemies,
      (activate_ultimate_kill_streak eng game).original_damage_values e0.kind =
        some e0.damage_value := by
    intro e0 he0
    obtain ⟨e1, he1, hk, hv⟩ :=
      activate_loop_snd_of_mem game.enemies game.original_damage_values e0 he0
    simp only [activate_ultimate_kill_streak, update_player_attributes]
    rw [hv, hsame e1 he1 e0 he0 hk]
  refine ⟨?_, ?_, ?_⟩
  · simp [end_ultimate_kill_streak, update_player_attributes, end_loop_fst]
  · intro e0 he0 e' he'
    simp only [end_ultimate_kill_streak, update_player_attributes, end_loop_fst,
      List.mem_map] at he'
    obtain ⟨e, _, rfl⟩ := he'
    intro hk
    simp only at hk ⊢
    rw [hmap, hk, hkey e0 he0]
    rfl
  · have hzero : (activate_ultimate_kill_streak eng game).enemies =
        game.enemies.map (fun e => { e with damage_value := 0 }) := by
      simp [activate_ultimate_kill_streak, update_player_attributes, activate_loop_fst]
    simp only [end_ultimate_kill_streak, update_player_attributes, end_loop_fst, hzero,
      List.map_map]
    conv_rhs => rw [← List.map_id game.enemies]
    apply List.map_congr_left
    intro e he
    simp only [Function.comp, id]
    rw [hkey e he]
    rfl

/-- C5 as amended, at one enemy of each of two kinds. -/
theorem restore_round_trip_witness :
    same_kind_same_damage pair_game.enemies ∧
    (end_ultimate_kill_streak late_engine buffed_pair_game).enemies.length =
      buffed_pair_game.enemies.length ∧
    (∀ e0 ∈ pair_game.enemies, ∀ e' ∈ (end_ultimate_kill_streak late_engine buffed_pair_game).enemies,
      e'.kind = e0.kind → e'.damage_value = e0.damage_value) ∧
    (end_ultimate_kill_streak late_engine
        (activate_ultimate_kill_streak sample_engine pair_game)).enemies = pair_game.enemies :=
  have hsame : same_kind_same_damage pair_game.enemies := by
    intro a ha b hb hk
    simp only [pair_game, sample_game, List.mem_cons, List.mem_singleton, List.not_mem_nil,
      or_false] at ha hb
    rcases ha with rfl | rfl <;> rcases hb with rfl | rfl <;> simp_all [sample_enemy]
  ⟨hsame, restore_round_trip sample_engine late_engine pair_game buffed_pair_game hsame rfl⟩

/-- C6, refuted as stated: `activate_ultimate_kill_streak` has no guard on
the flag.  Run on the state left by a first activation (flag set, 25 rockets
and damage value 0.05 in the snapshot) it overwrites `original_ammo_state`
with 1000 and the snapshot of the live kind with 0; `play_kill_streak_sound`
reaches it with the flag set whenever `kill_count` is 10. -/
theorem activate_twice_overwrites_snapshot :
    buffed_pair_game.is_kill_streak_active = true ∧
    buffed_pair_game.player.original_ammo_state = 25 ∧
    buffed_pair_game.original_damage_values .ENEMY_TYPE1 = some 0.05 ∧
    (activate_ultimate_kill_streak sample_engine buffed_pair_game).player.original_ammo_state
      = 1000 ∧
    (activate_ultimate_kill_streak sample_engine buffed_pair_game).original_damage_values
      .ENEMY_TYPE1 = some 0 ∧
    activate_ultimate_kill_streak sample_engine buffed_pair_game ≠ buffed_pair_game ∧
    play_kill_streak_sound sample_engine
        { buffed_pair_game with player := { buffed_pair_game.player with kill_count := 10 } } =
      activate_ultimate_kill_streak sample_engine
        { buffed_pair_game with player := { buffed_pair_game.player with kill_count := 10 } } := by
  have h1 : buffed_pair_game.player.original_ammo_state = 25 := rfl
  have h2 : (activate_ultimate_kill_streak sample_engine buffed_pair_game).player.original_ammo_state
      = 1000 := rfl
  refine ⟨rfl, h1, ?_, h2, ?_, ?_, ?_⟩
  · simp [buffed_pair_game, activate_ultimate_kill_streak, update_player_attributes,
      activate_loop, damage_map.assign, pair_game, sample_game, sample_enemy]
  · simp [buffed_pair_game, activate_ultimate_kill_streak, update_player_attributes,
      activate_loop, damage_map.assign, pair_game, sample_game, sample_enemy]
  · intro h
    rw [h] at h2
    rw [h1] at h2
    exact absurd h2 (by decide)
  · rw [play_kill_streak_sound_eq]
    simp

/-- C6 as amended: the latch is kept where `activate_ultimate_kill_streak` is
called.  In every state reached by frame steps from a new game
(`kill_count = 0`, kill streak inactive) in which the kill streak is active, a
call of `handle_enemy_collision` that returns has made no call of
`activate_ultimate_kill_streak`: `original_ammo_state` and the snapshot keep
their values and the kill streak stays active. -/
theorem activation_guarded_at_call_sites (game0 game : game_data) (n : Nat)
    (hkill : game0.player.kill_count = 0) (hflag : game0.is_kill_streak_active = false)
    (hrun : frames game0 n game) (hactive : game.is_kill_streak_active = true) :
    ∀ (eng : engine) (j i : Nat) (game' : game_data),
      handle_enemy_collision eng game j i = some game' →
        handle_enemy_collision_counted eng game j i = some (game', 0) ∧
        game'.player.original_ammo_state = game.player.original_ammo_state ∧
        game'.original_damage_values = game.original_damage_values ∧
        game'.is_kill_streak_active = true := by
  intro eng j i game' h
  obtain ⟨_, hinv⟩ := frames_flag_needs_ten game0 game n hkill hflag hrun
  have h10 : game.player.kill_count + 1 ≠ 10 := by
    intro h9
    have hfalse := hinv (by omega)
    rw [hfalse] at hactive
    cases hactive
  rw [← handle_enemy_collision_counted_fst] at h
  cases hc : handle_enemy_collision_counted eng game j i with
  | none => simp [hc] at h
  | some r =>
    obtain ⟨g, k⟩ := r
    simp only [hc, Option.map_some', Option.some.injEq] at h
    subst h
    obtain ⟨hk, h1, h2, h3⟩ := handle_enemy_collision_counted_quiet eng game g j i k hc h10
    subst hk
    exact ⟨rfl, h1, h2, by rw [h3]; exact hactive⟩

/-- C6 as amended, at `veteran_game`, reached from a new game by ten kills:
the kill streak is active, and a hit on its enemy returns with the 25 rockets
of `original_ammo_state` untouched. -/
theorem activation_guarded_at_call_sites_witness :
    (streak_game 0).player.kill_count = 0 ∧
    (streak_game 0).is_kill_streak_active = false ∧
    frames (streak_game 0) 1 veteran_game ∧
    veteran_game.is_kill_streak_active = true ∧
    ∃ game', handle_enemy_collision sample_engine veteran_game 0 0 = some game' ∧
      handle_enemy_collision_counted sample_engine veteran_game 0 0 = some (game', 0) ∧
      game'.player.original_ammo_state = 25 ∧
      game'.is_kill_streak_active = true := by
  have hsome : (handle_enemy_collision sample_engine veteran_game 0 0).isSome = true := by
    simp [handle_enemy_collision, veteran_game, buff_game, activate_ultimate_kill_streak,
      update_player_attributes, activate_loop, sample_game, sample_enemy, sample_player,
      player_attributes]
  obtain ⟨game', hhit⟩ := Option.isSome_iff_exists.mp hsome
  have h := activation_guarded_at_call_sites (streak_game 0) veteran_game 1 rfl rfl
    frames_to_veteran rfl sample_engine 0 0 game' hhit
  exact ⟨rfl, rfl, frames_to_veteran, rfl, game', hhit, h.1, h.2.1, h.2.2.2⟩

/-- C7, refuted as stated: `end_ultimate_kill_streak` has no guard on the
flag.  On a state with the kill streak inactive, 25 rockets and enemies of
damage values 0.05 and 0.3 it sets the rocket count to `original_ammo_state`
(here 0) and both damage values to 0. -/
theorem end_when_inactive_changes_state :
    pair_game.is_kill_streak_active = false ∧
    pair_game.player.rocket_count = 25 ∧
    pair_game.enemies.map (fun e => e.damage_value) = [0.05, 0.3] ∧
    (end_ultimate_kill_streak sample_engine pair_game).player.rocket_count = 0 ∧
    (end_ultimate_kill_streak sample_engine pair_game).enemies.map (fun e => e.damage_value)
      = [0, 0] := by
  refine ⟨rfl, rfl, rfl, rfl, ?_⟩
  simp [end_ultimate_kill_streak, update_player_attributes, end_loop, damage_map.index,
    damage_map.assign, pair_game, sample_game, sample_enemy]

/-- C7 as amended: the guard is in `update_kill_streaks`, the only caller of
`end_ultimate_kill_streak`: with the kill streak inactive it leaves the whole
game state unchanged, whatever the timer reads. -/
theorem update_kill_streaks_inactive (eng : engine) (game : game_data)
    (hinactive : game.is_kill_streak_active = false) :
    update_kill_streaks eng game = game := by
  simp [update_kill_streaks, should_end_kill_streak, hinactive]

/-- C7 as amended, at a state with the kill streak inactive. -/
theorem update_kill_streaks_inactive_witness :
    pair_game.is_kill_streak_active = false ∧
    update_kill_streaks late_engine pair_game = pair_game :=
  ⟨rfl, update_kill_streaks_inactive late_engine pair_game rfl⟩

/-- C8: `update_kill_streaks` ends the buff exactly when the flag is set and
the timer reads at least 15000 ticks past `last_kill_streak_tick`.  Then the
flag is cleared, the player has damage 100, `original_ammo_state` rockets and
boost 6, and every enemy carries the value the snapshot map stores for its
kind (0 for a kind without entry); otherwise the state is unchanged. -/
theorem update_kill_streaks_spec (eng : engine) (game : game_data) :
    ((game.is_kill_streak_active = true ∧
        (eng.timer_ticks : ℚ) - game.last_kill_streak_tick ≥ 15000) →
      (update_kill_streaks eng game).is_kill_streak_active = false ∧
      (update_kill_streaks eng game).player.damage = 100 ∧
      (update_kill_streaks eng game).player.rocket_count = game.player.original_ammo_state ∧
      (update_kill_streaks eng game).player.player_boost = 6 ∧
      (update_kill_streaks eng game).enemies = game.enemies.map
        (fun e => { e with damage_value := (game.original_damage_values e.kind).getD 0 }) ∧
      (∀ e' ∈ (update_kill_streaks eng game).enemies, ∀ v,
        game.original_damage_values e'.kind = some v → e'.damage_value = v)) ∧
    (¬ (game.is_kill_streak_active = true ∧
        (eng.timer_ticks : ℚ) - game.last_kill_streak_tick ≥ 15000) →
      update_kill_streaks eng game = game) := by
  constructor
  · rintro ⟨hactive, htime⟩
    have hend : update_kill_streaks eng game = end_ultimate_kill_streak eng game := by
      simp [update_kill_streaks, should_end_kill_streak, hactive, htime]
    rw [hend]
    refine ⟨rfl, rfl, rfl, rfl, ?_, ?_⟩
    · simp [end_ultimate_kill_streak, update_player_attributes, end_loop_fst]
    · intro e' he' v hv
      simp only [end_ultimate_kill_streak, update_player_attributes, end_loop_fst,
        List.mem_map] at he'
      obtain ⟨e, _, rfl⟩ := he'
      simp only at hv ⊢
      rw [hv]
      rfl
  · intro hnot
    have hfalse : should_end_kill_streak eng game = false := by
      simp only [should_end_kill_streak, Bool.and_eq_false_iff, decide_eq_false_iff_not]
      by_cases hactive : game.is_kill_streak_active = true
      · exact Or.inr (fun htime => hnot ⟨hactive, htime⟩)
      · exact Or.inl (by simpa using hactive)
    simp [update_kill_streaks, hfalse]

/-- C8 at the boundary: a buff started at tick 5000 is ended by the update at
tick 20000, exactly 15000 ticks later, and not by the update at tick 5000. -/
theorem update_kill_streaks_spec_witness :
    (buffed_pair_game.is_kill_streak_active = true ∧
      (late_engine.timer_ticks : ℚ) - buffed_pair_game.last_kill_streak_tick = 15000) ∧
    (update_kill_streaks late_engine buffed_pair_game).is_kill_streak_active = false ∧
    (update_kill_streaks late_engine buffed_pair_game).player.rocket_count = 25 ∧
    update_kill_streaks sample_engine buffed_pair_game = buffed_pair_game := by
  have hlast : buffed_pair_game.last_kill_streak_tick = 5000 := by
    simp [buffed_pair_game, activate_ultimate_kill_streak, sample_engine]
  have htime : (late_engine.timer_ticks : ℚ) - buffed_pair_game.last_kill_streak_tick = 15000 := by
    rw [hlast]; simp [late_engine]; norm_num
  have hearly : ¬ (buffed_pair_game.is_kill_streak_active = true ∧
      (sample_engine.timer_ticks : ℚ) - buffed_pair_game.last_kill_streak_tick ≥ 15000) := by
    rw [hlast]; simp [sample_engine]
  have hlate := (update_kill_streaks_spec late_engine buffed_pair_game).1 ⟨rfl, htime.ge⟩
  exact ⟨⟨rfl, htime⟩, hlate.1, hlate.2.2.1,
    (update_kill_streaks_spec sample_engine buffed_pair_game).2 hearly⟩

/-! ## Spawning during the buff -/

/-- C9, evaluated on the code: `new_enemy` takes the damage value from the
table of its kind whatever the flag says.  In the state left by the
activation (flag set, every enemy at damage value 0) a spawn that is due adds
an enemy of damage value 0.05 and leaves the flag set. -/
theorem spawn_during_buff_is_harmful :
    buffed_pair_game.is_kill_streak_active = true ∧
    buffed_pair_game.enemies.map (fun e => e.damage_value) = [0, 0] ∧
    (spawn_enemy sample_engine (sample_enemy .ENEMY_BOSS 0 0 0 0) sample_rolls
        buffed_pair_game).map
      (fun game' => (game'.is_kill_streak_active, game'.enemies.map (fun e => e.damage_value)))
      = some (true, [0, 0, 0.05]) := by
  refine ⟨rfl, ?_, ?_⟩
  · simp [buffed_pair_game, activate_ultimate_kill_streak, update_player_attributes,
      activate_loop, pair_game, sample_game]
  · simp [spawn_enemy, add_enemy, new_enemy, new_enemy_position, is_safe_distance_from_player,
      is_safe_distance_from_enemies, point_point_distance_sq, sprite_center_point, rnd,
      unsigned_sub, enemy_kind_of_int, enemy_type_attributes, screen_width, screen_height,
      sample_rolls, sample_engine, buffed_pair_game, activate_ultimate_kill_streak,
      update_player_attributes, activate_loop, pair_game, sample_game, sample_player,
      player_attributes, sample_enemy, sample_sprite]
    norm_num

/-! ## Enemy projectile against player -/

/-- C10, evaluated on the code: the test is `shield_pct != 0.0`, so a negative
shield is drained further and shields the fuel.  From shield 0.25 and fuel 1
two hits leave shield -0.05 and fuel 1; the third hit (enemy damage value
0.05) leaves shield -0.20 and fuel still 1. -/
theorem negative_shield_still_drains_shield :
    (shield_game.enemies[0]?).map (fun e => e.damage_value) = some (0.05 : ℚ) ∧
    (handle_projectile_collision shield_game 0).map
      (fun g => (g.player.shield_pct, g.player.fuel_pct)) = some ((0.10 : ℚ), (1 : ℚ)) ∧
    ((handle_projectile_collision shield_game 0).bind
        (fun g => handle_projectile_collision g 0)).map
      (fun g => (g.player.shield_pct, g.player.fuel_pct)) = some ((-0.05 : ℚ), (1 : ℚ)) ∧
    (((handle_projectile_collision shield_game 0).bind
        (fun g => handle_projectile_collision g 0)).bind
        (fun g => handle_projectile_collision g 0)).map
      (fun g => (g.player.shield_pct, g.player.fuel_pct)) = some ((-0.20 : ℚ), (1 : ℚ)) := by
  refine ⟨rfl, ?_, ?_, ?_⟩ <;>
  · simp [handle_projectile_collision, game_over, shield_game, sample_game, sample_player,
      player_attributes, sample_enemy]
    norm_num

/-- C11: without shield, a hit at an index valid for the projectiles and the
enemies leaves fuel `fuel_pct - enemies[i].damage_value`; the state is
`GAME_OVER` when that is at most 0 and is unchanged when it is positive. -/
theorem handle_projectile_collision_fuel (game : game_data) (i : Nat)
    (hshield : game.player.shield_pct = 0)
    (he : i < game.enemies.length) (hp : i < game.projectiles.length) :
    ∃ game',
      handle_projectile_collision game i = some game' ∧
      game'.player.fuel_pct = game.player.fuel_pct - (game.enemies.get ⟨i, he⟩).damage_value ∧
      (game.player.fuel_pct - (game.enemies.get ⟨i, he⟩).damage_value ≤ 0 →
        game'.state = game_state.GAME_OVER) ∧
      (game.player.fuel_pct - (game.enemies.get ⟨i, he⟩).damage_value > 0 →
        game'.state = game.state) := by
  have hget : game.enemies[i]? = some (game.enemies.get ⟨i, he⟩) := by
    simp [List.getElem?_eq_getElem he]
  simp only [List.get_eq_getElem] at hget ⊢
  by_cases hfuel : game.player.fuel_pct - game.enemies[i].damage_value ≤ 0
  · simp [handle_projectile_collision, hshield, hget, hfuel, hp, game_over]
    intro hlt
    exact absurd (sub_pos.mpr hlt) (not_lt.mpr hfuel)
  · have hpos : 0 < game.player.fuel_pct - game.enemies[i].damage_value := lt_of_not_ge hfuel
    simp [handle_projectile_collision, hshield, hget, hfuel, hp, hpos]

/-- C11 at the scenario of the spec: fuel 0.05 against damage value 0.10 ends
the game. -/
theorem handle_projectile_collision_fuel_witness :
    low_fuel_game.player.shield_pct = 0 ∧
    low_fuel_game.player.fuel_pct = (0.05 : ℚ) ∧
    low_fuel_game.enemies.map (fun e => e.damage_value) = [(0.10 : ℚ)] ∧
    low_fuel_game.state = game_state.IN_PROGRESS ∧
    ∃ game',
      handle_projectile_collision low_fuel_game 0 = some game' ∧
      game'.state = game_state.GAME_OVER := by
  obtain ⟨game', h1, _, h3, _⟩ :=
    handle_projectile_collision_fuel low_fuel_game 0 rfl (by decide) (by decide)
  refine ⟨rfl, rfl, rfl, rfl, game', h1, h3 ?_⟩
  simp [low_fuel_game, sample_enemy]
  norm_num

/-- C12, evaluated on the code: the hit subtracts 0.15 without a floor (its
comment says 0.25, the step of the pickup, which would end exactly at 0).
From shield 0.10, inside `[0, 1]`, one hit leaves shield -0.05.  The pickup
side holds: `apply_power_up` keeps a shield of `[0, 1]` inside `[0, 1]`. -/
theorem hit_drives_shield_below_zero :
    (0 ≤ low_shield_game.player.shield_pct ∧ low_shield_game.player.shield_pct ≤ 1) ∧
    (handle_projectile_collision low_shield_game 0).map (fun g => g.player.shield_pct)
      = some (-0.05 : ℚ) ∧
    (∀ (game : game_data) (power_up : power_up_data),
      0 ≤ game.player.shield_pct → game.player.shield_pct ≤ 1 →
      0 ≤ (apply_power_up game power_up).player.shield_pct ∧
      (apply_power_up game power_up).player.shield_pct ≤ 1) := by
  refine ⟨?_, ?_, ?_⟩
  · simp [low_shield_game, shield_game]
    norm_num
  · simp [handle_projectile_collision, game_over, low_shield_game, shield_game, sample_game,
      sample_player, player_attributes]
    norm_num
  · intro game power_up h0 h1
    unfold apply_power_up
    split_ifs
    · simp only [apply_shield, MAX_PERCENT, POWER_UP_BONUS]
      refine ⟨le_min (by norm_num) (by linarith), min_le_left _ _⟩
    · exact ⟨h0, h1⟩
    · exact ⟨h0, h1⟩
    · exact ⟨h0, h1⟩

/-! ## Circle collision -/

/-- C13: `circle_collision` is symmetric in its two circles. -/
theorem circle_collision_symm (a b : circle) :
    circle_collision a b = circle_collision b a := by
  unfold circle_collision
  have h1 : (a.center.x - b.center.x) ^ 2 + (a.center.y - b.center.y) ^ 2 =
      (b.center.x - a.center.x) ^ 2 + (b.center.y - a.center.y) ^ 2 := by ring
  have h2 : a.radius + b.radius = b.radius + a.radius := add_comm _ _
  rw [h1, h2]

/-- C15: `apply_power_up` sets one player attribute and nothing else: kind
`SHIELD` sets the shield to `min(1.0, shield_pct + 0.25)`, `FUEL` the fuel to
`min(1.0, fuel_pct + 0.25)`, `ROCKET` adds 1 to `rocket_count`, and `TIME` and
every other value (such as 4 and 5, which `random_power_up_kind` draws) add 5
to `time_remaining`. -/
theorem apply_power_up_spec (game : game_data) (power_up : power_up_data) :
    (power_up.kind = SHIELD → apply_power_up game power_up =
      { game with player := { game.player with
          shield_pct := min 1 (game.player.shield_pct + (0.25 : ℚ)) } }) ∧
    (power_up.kind = FUEL → apply_power_up game power_up =
      { game with player := { game.player with
          fuel_pct := min 1 (game.player.fuel_pct + (0.25 : ℚ)) } }) ∧
    (power_up.kind = ROCKET → apply_power_up game power_up =
      { game with player := { game.player with
          rocket_count := game.player.rocket_count + 1 } }) ∧
    (power_up.kind ≠ SHIELD → power_up.kind ≠ FUEL → power_up.kind ≠ ROCKET →
      apply_power_up game power_up =
        { game with player := { game.player with
            time_remaining := game.player.time_remaining + 5 } }) ∧
    (TIME ≠ SHIELD ∧ TIME ≠ FUEL ∧ TIME ≠ ROCKET) ∧
    (random_power_up_kind 4 = 4 ∧ random_power_up_kind 5 = 5) := by
  refine ⟨?_, ?_, ?_, ?_, ?_, ?_⟩
  · intro h
    simp [apply_power_up, h, apply_shield, MAX_PERCENT, POWER_UP_BONUS]
  · intro h
    simp [apply_power_up, h, apply_fuel, MAX_PERCENT, POWER_UP_BONUS, FUEL, SHIELD, ROCKET]
  · intro h
    simp [apply_power_up, h, apply_rocket, SHIELD, ROCKET]
  · intro h1 h2 h3
    simp [apply_power_up, h1, h2, h3, apply_time, EXTRA_TIME]
  · decide
  · decide

/-- C16, evaluated on the code: `bounce_power_up` tests and negates the
struct fields `position` and `velocity`, which `new_power_up` never assigns
and `update_sprite` never moves, so `update_power_up` leaves the sprite to the
engine alone.  A power-up made by `new_power_up` at `(1300, 0)` with the draws
0.75 and 0.5, which give the velocity `(1, 0)`, has its sprite at
`x = 1300 + n` after `n` steps, whatever the struct fields hold: at 1301,
outside `[-1300, 1300]`, after the first step, and further out after every
later one. -/
theorem power_up_sprite_leaves_bounds (uninit : power_up_data) (n : Nat) :
    (((update_power_up sample_library)^[n]
        (new_power_up sample_engine uninit 0 1300 0 (3 / 4) (1 / 2))).power_up_sprite.x
      = 1300 + (n : ℚ)) ∧
    ((update_power_up sample_library
        (new_power_up sample_engine uninit 0 1300 0 (3 / 4) (1 / 2))).power_up_sprite.x = 1301) ∧
    ¬ ((update_power_up sample_library
        (new_power_up sample_engine uninit 0 1300 0 (3 / 4) (1 / 2))).power_up_sprite.x ≤ 1300) := by
  have hstep : ∀ p : power_up_data,
      (update_power_up sample_library p).power_up_sprite =
        sample_library.update_sprite p.power_up_sprite := by
    intro p
    simp only [update_power_up, bounce_power_up]
    split_ifs <;> rfl
  have hrun : ∀ m : Nat,
      ((update_power_up sample_library)^[m]
          (new_power_up sample_engine uninit 0 1300 0 (3 / 4) (1 / 2))).power_up_sprite.x
        = 1300 + (m : ℚ) ∧
      ((update_power_up sample_library)^[m]
          (new_power_up sample_engine uninit 0 1300 0 (3 / 4) (1 / 2))).power_up_sprite.dx = 1 := by
    intro m
    induction m with
    | zero =>
      simp [new_power_up, sprite_set_velocity, sprite_set_position, create_sprite]
      norm_num
    | succ k ih =>
      rw [Function.iterate_succ_apply', hstep]
      obtain ⟨h1, h2⟩ := ih
      have hup : ∀ s : sprite, (sample_library.update_sprite s).x = s.x + s.dx ∧
          (sample_library.update_sprite s).dx = s.dx := fun _ => ⟨rfl, rfl⟩
      rw [(hup _).1, (hup _).2, h1, h2]
      push_cast
      exact ⟨by ring, rfl⟩
  have h1 := (hrun 1).1
  simp only [Function.iterate_succ, Function.iterate_zero, Function.comp_apply, id_eq] at h1
  have h1301 : (update_power_up sample_library
      (new_power_up sample_engine uninit 0 1300 0 (3 / 4) (1 / 2))).power_up_sprite.x = 1301 := by
    rw [h1]
    norm_num
  refine ⟨(hrun n).1, h1301, ?_⟩
  rw [h1301]
  norm_num

/-- C17, evaluated on the code: for every engine and every power-up the sprite
after `update_power_up` is the sprite `update_sprite` returns, so the velocity
that moves the power-up is never negated; what the step negates is the struct
field `velocity`, on the test of the struct field `position`, which the step
leaves as it was.  A power-up made by `new_power_up` at `(1400, 0)`, outside
`[-1300, 1300]`, with the draws 0.75 and 0.5, which give the velocity
`(1, 0)`, still moves by `(1, 0)` after the step and is at `x = 1401`,
whatever the struct fields hold. -/
theorem power_up_sprite_never_reflected (uninit : power_up_data) :
    (∀ (lib : library) (power_up : power_up_data),
      (update_power_up lib power_up).power_up_sprite =
        lib.update_sprite power_up.power_up_sprite ∧
      (update_power_up lib power_up).position = power_up.position ∧
      (update_power_up lib power_up).velocity.x =
        (if power_up.position.x > 1300 ∨ power_up.position.x < -1300 then
          -power_up.velocity.x else power_up.velocity.x)) ∧
    (new_power_up sample_engine uninit 0 1400 0 (3 / 4) (1 / 2)).power_up_sprite.x = 1400 ∧
    (new_power_up sample_engine uninit 0 1400 0 (3 / 4) (1 / 2)).power_up_sprite.dx = 1 ∧
    (update_power_up sample_library
      (new_power_up sample_engine uninit 0 1400 0 (3 / 4) (1 / 2))).power_up_sprite.dx = 1 ∧
    (update_power_up sample_library
      (new_power_up sample_engine uninit 0 1400 0 (3 / 4) (1 / 2))).power_up_sprite.x = 1401 := by
  have hstep : ∀ (lib : library) (p : power_up_data),
      (update_power_up lib p).power_up_sprite = lib.update_sprite p.power_up_sprite := by
    intro lib p
    simp only [update_power_up, bounce_power_up]
    split_ifs <;> rfl
  refine ⟨fun lib p => ⟨hstep lib p, ?_, ?_⟩, ?_, ?_, ?_, ?_⟩
  · simp only [update_power_up, bounce_power_up]
    split_ifs <;> rfl
  · simp only [update_power_up, bounce_power_up]
    split_ifs <;> simp_all
  · simp [new_power_up, sprite_set_velocity, sprite_set_position, create_sprite]
  · simp [new_power_up, sprite_set_velocity, sprite_set_position, create_sprite]
    norm_num
  · rw [hstep]
    simp [new_power_up, sprite_set_velocity, sprite_set_position, create_sprite, sample_library]
    norm_num
  · rw [hstep]
    simp [new_power_up, sprite_set_velocity, sprite_set_position, create_sprite, sample_library]
    norm_num

/-! ## The enemy-projectile pass -/

/-- C18: whenever `check_enemy_projectile_collisions` returns, the projectile
list is the original list without the enemy-owned projectiles that overlap the
player's collision circle, the others in their original order; and it returns
whenever every such projectile sits at an index that is valid for
`game.enemies`, the only out-of-range access the pass can make. -/
theorem check_enemy_projectile_collisions_spec (lib : library) (game : game_data) :
    (∀ game', check_enemy_projectile_collisions lib game = some game' →
      game'.projectiles = game.projectiles.filter
        (fun p => !hits_player (lib.sprite_collision_circle game.player.player_sprite) p)) ∧
    ((∀ i p, game.projectiles[i]? = some p →
        hits_player (lib.sprite_collision_circle game.player.player_sprite) p = true →
        i < game.enemies.length) →
      ∃ game', check_enemy_projectile_collisions lib game = some game') := by
  constructor
  · intro game' h
    have := check_loop_projectiles lib game.projectiles.length game game' (Nat.le_refl _) h
    simpa using this
  · intro hsafe
    exact check_loop_returns lib game.projectiles.length game (Nat.le_refl _)
      (fun i p _ hp hh => hsafe i p hp hh)

/-- C18 at four projectiles of which the first and the last are enemy-owned
and on the player: the pass returns and leaves the second and the third. -/
theorem check_enemy_projectile_collisions_spec_witness :
    ∃ game',
      check_enemy_projectile_collisions sample_library crossfire_game = some game' ∧
      game'.projectiles = [sample_projectile 432 432 0, sample_projectile 1000 1000 1] := by
  have hsafe : ∀ i p, crossfire_game.projectiles[i]? = some p →
      hits_player (sample_library.sprite_collision_circle crossfire_game.player.player_sprite) p
        = true → i < crossfire_game.enemies.length := by
    intro i p hp _
    have hi : i < crossfire_game.projectiles.length := by
      by_contra hge
      rw [List.getElem?_eq_none (Nat.le_of_not_lt hge)] at hp
      cases hp
    exact hi
  obtain ⟨game', hgame'⟩ :=
    (check_enemy_projectile_collisions_spec sample_library crossfire_game).2 hsafe
  refine ⟨game', hgame', ?_⟩
  rw [(check_enemy_projectile_collisions_spec sample_library crossfire_game).1 game' hgame']
  simp [crossfire_game, sample_game, hits_player, circle_collision, sample_library,
    sprite_center_point, sample_projectile, sample_player, player_attributes, sample_sprite]
  norm_num

/-! ## Enemy state and firing -/

/-- C19: with `d` the distance of the enemy's centre to the player's centre
(the square root of the squared distance) and `r` the roll of `rnd(100)`: for
`d ≥ 300` the state becomes `PATROL`; for `d < 300` and `r < 30` it becomes
`CHASE` from `ATTACK` and `ATTACK` from any other state; for `d < 300` and
`r ≥ 30` the enemy is unchanged; and the state is `IDLE` afterwards only if
the enemy was in `IDLE` and was left unchanged. -/
theorem update_enemy_state_spec (enemy : enemy_data) (player : player_data) (r : Nat)
    (hr : r < 100) :
    (300 ≤ Real.sqrt ((point_point_distance_sq (sprite_center_point enemy.enemy_sprite)
        (sprite_center_point player.player_sprite) : ℚ) : ℝ) →
      (update_enemy_state enemy player r).state = enemy_state.PATROL) ∧
    (Real.sqrt ((point_point_distance_sq (sprite_center_point enemy.enemy_sprite)
        (sprite_center_point player.player_sprite) : ℚ) : ℝ) < 300 → r < 30 →
      (update_enemy_state enemy player r).state =
        (if enemy.state = enemy_state.ATTACK then enemy_state.CHASE else enemy_state.ATTACK)) ∧
    (Real.sqrt ((point_point_distance_sq (sprite_center_point enemy.enemy_sprite)
        (sprite_center_point player.player_sprite) : ℚ) : ℝ) < 300 → 30 ≤ r →
      update_enemy_state enemy player r = enemy) ∧
    ((update_enemy_state enemy player r).state = enemy_state.IDLE →
      enemy.state = enemy_state.IDLE ∧ update_enemy_state enemy player r = enemy) := by
  have hrnd : rnd 100 r = r := Nat.mod_eq_of_lt hr
  have hiff := sqrt_cast_lt 300 (point_point_distance_sq (sprite_center_point enemy.enemy_sprite)
    (sprite_center_point player.player_sprite)) (by norm_num)
  have hcast : ((300 : ℚ) : ℝ) = 300 := by norm_num
  rw [hcast] at hiff
  refine ⟨?_, ?_, ?_, ?_⟩
  · intro h
    have hfar := mt hiff.mpr (not_lt.mpr h)
    simp [update_enemy_state, hfar]
  · intro h h30
    simp [update_enemy_state, hiff.mp h, hrnd, h30]
  · intro h h30
    simp [update_enemy_state, hiff.mp h, hrnd, Nat.not_lt.mpr h30]
  · intro h
    unfold update_enemy_state at h ⊢
    rw [hrnd] at h ⊢
    split_ifs at h ⊢
    simp_all

/-- C19 at an attacking enemy 150 from the player with roll 10: it turns to
`CHASE`. -/
theorem update_enemy_state_spec_witness :
    (10 < 100) ∧
    Real.sqrt ((point_point_distance_sq (sprite_center_point near_enemy.enemy_sprite)
      (sprite_center_point sample_player.player_sprite) : ℚ) : ℝ) = 150 ∧
    near_enemy.state = enemy_state.ATTACK ∧
    (update_enemy_state near_enemy sample_player 10).state = enemy_state.CHASE := by
  have hdist : point_point_distance_sq (sprite_center_point near_enemy.enemy_sprite)
      (sprite_center_point sample_player.player_sprite) = 150 ^ 2 := by
    simp [point_point_distance_sq, sprite_center_point, near_enemy, sample_enemy, sample_player,
      player_attributes, sample_sprite]
    norm_num
  have hsqrt : Real.sqrt ((point_point_distance_sq (sprite_center_point near_enemy.enemy_sprite)
      (sprite_center_point sample_player.player_sprite) : ℚ) : ℝ) = 150 := by
    rw [hdist]
    push_cast
    exact Real.sqrt_sq (by norm_num)
  have h := update_enemy_state_spec near_enemy sample_player 10 (by decide)
  refine ⟨by decide, hsqrt, rfl, ?_⟩
  rw [h.2.1 (by rw [hsqrt]; norm_num) (by decide)]
  rfl

/-- C20: with `last_projectile_tick` an earlier reading of the timer
(`0 ≤ last_projectile_tick ≤ now < 2 ^ 31`), `create_enemy_projectile` fires
exactly when the state is `ATTACK`, `now - last_projectile_tick ≥ 2000`,
`attack_start_time` is not 0 and `now - attack_start_time` is at least 1000
times the delay (1, or 2 when the roll exceeds 0.5).  Firing appends exactly
one projectile, of owner 1 and radius 6, and sets `last_projectile_tick = now`
and `attack_start_time = 0`; otherwise the game is unchanged, and the first
qualifying call (`attack_start_time = 0`) only records
`attack_start_time = now`. -/
theorem create_enemy_projectile_spec (lib : library) (eng : engine) (random_num : ℚ)
    (game : game_data) (player : player_data) (enemy : enemy_data)
    (h0 : 0 ≤ enemy.last_projectile_tick)
    (h1 : enemy.last_projectile_tick ≤ eng.timer_ticks)
    (h2 : eng.timer_ticks < 2 ^ 31) :
    ((enemy.state = enemy_state.ATTACK ∧
        (eng.timer_ticks : Int) - enemy.last_projectile_tick ≥ 2000 ∧
        enemy.attack_start_time ≠ 0 ∧
        (eng.timer_ticks : ℚ) - enemy.attack_start_time ≥ 1000 * calculate_delay random_num) →
      ∃ projectile,
        (create_enemy_projectile lib eng random_num game player enemy).1 =
          { game with projectiles := game.projectiles ++ [projectile] } ∧
        projectile.owner = 1 ∧ projectile.shape.radius = 6 ∧
        (create_enemy_projectile lib eng random_num game player enemy).2.last_projectile_tick
          = eng.timer_ticks ∧
        (create_enemy_projectile lib eng random_num game player enemy).2.attack_start_time = 0) ∧
    (¬ (enemy.state = enemy_state.ATTACK ∧
        (eng.timer_ticks : Int) - enemy.last_projectile_tick ≥ 2000 ∧
        enemy.attack_start_time ≠ 0 ∧
        (eng.timer_ticks : ℚ) - enemy.attack_start_time ≥ 1000 * calculate_delay random_num) →
      (create_enemy_projectile lib eng random_num game player enemy).1 = game) ∧
    ((enemy.state = enemy_state.ATTACK ∧
        (eng.timer_ticks : Int) - enemy.last_projectile_tick ≥ 2000 ∧
        enemy.attack_start_time = 0) →
      create_enemy_projectile lib eng random_num game player enemy =
        (game, { enemy with attack_start_time := eng.timer_ticks })) ∧
    ((random_num > 1 / 2 → calculate_delay random_num = 2) ∧
      (¬ random_num > 1 / 2 → calculate_delay random_num = 1)) := by
  have helapsed : ((unsigned_sub eng.timer_ticks (to_unsigned enemy.last_projectile_tick) : Nat) : ℚ)
        ≥ ((PROJECTILE_FIRE_INTERVAL : Int) : ℚ) ↔
      (eng.timer_ticks : Int) - enemy.last_projectile_tick ≥ 2000 := by
    have hcast : ((unsigned_sub eng.timer_ticks (to_unsigned enemy.last_projectile_tick) : Nat) : ℚ)
        = (((eng.timer_ticks : Int) - enemy.last_projectile_tick : Int) : ℚ) := by
      rw [← unsigned_elapsed _ _ h0 h1 h2]
      simp
    rw [hcast, ge_iff_le, Int.cast_le]
    rfl
  have hsigned := to_signed_small eng.timer_ticks h2
  refine ⟨?_, ?_, ?_, ?_⟩
  · rintro ⟨hstate, hfire, hstart, hwind⟩
    have hnot : ¬ ((eng.timer_ticks : ℚ) - enemy.attack_start_time
        < 1000 * calculate_delay random_num) := not_lt.mpr hwind
    refine ⟨create_projectile (circle_point_position lib enemy.enemy_sprite)
      (calculate_angle lib (circle_point_position lib enemy.enemy_sprite)
        (sprite_center_point player.player_sprite)), ?_, rfl, rfl, ?_, ?_⟩ <;>
      simp only [create_enemy_projectile, hstate, helapsed.mpr hfire, hstart, hnot, and_self,
        if_true, if_false, hsigned]
  · intro hno
    unfold create_enemy_projectile
    by_cases hgate : enemy.state = enemy_state.ATTACK ∧
        ((unsigned_sub eng.timer_ticks (to_unsigned enemy.last_projectile_tick) : Nat) : ℚ)
          ≥ ((PROJECTILE_FIRE_INTERVAL : Int) : ℚ)
    · by_cases hstart : enemy.attack_start_time = 0
      · simp only [hgate, and_self, if_true, hstart]
      · by_cases hwind : (eng.timer_ticks : ℚ) - enemy.attack_start_time
            < 1000 * calculate_delay random_num
        · simp only [hgate, and_self, if_true, hstart, if_false, hwind]
        · exact absurd ⟨hgate.1, helapsed.mp hgate.2, hstart, not_lt.mp hwind⟩ hno
    · simp only [hgate, if_false]
  · rintro ⟨hstate, hfire, hstart⟩
    simp only [create_enemy_projectile, hstate, helapsed.mpr hfire, hstart, and_self, if_true]
  · constructor
    · intro h
      have h' : random_num > 0.5 := by norm_num; exact h
      simp [calculate_delay, h']
    · intro h
      have h' : ¬ random_num > 0.5 := by norm_num; exact not_lt.mp h
      simp only [calculate_delay, h', if_false]

/-- C20 at an attacking enemy that fired at tick 1000 and started its windup
at tick 3500, at tick 5000 with the delay not doubled: it fires. -/
theorem create_enemy_projectile_spec_witness :
    (0 ≤ armed_enemy.last_projectile_tick ∧
      armed_enemy.last_projectile_tick ≤ sample_engine.timer_ticks ∧
      sample_engine.timer_ticks < 2 ^ 31) ∧
    ∃ projectile,
      (create_enemy_projectile sample_library sample_engine (1 / 4) sample_game sample_player
          armed_enemy).1 = { sample_game with projectiles := sample_game.projectiles ++ [projectile] } ∧
      projectile.owner = 1 ∧ projectile.shape.radius = 6 ∧
      (create_enemy_projectile sample_library sample_engine (1 / 4) sample_game sample_player
          armed_enemy).2.last_projectile_tick = sample_engine.timer_ticks ∧
      (create_enemy_projectile sample_library sample_engine (1 / 4) sample_game sample_player
          armed_enemy).2.attack_start_time = 0 := by
  have h := create_enemy_projectile_spec sample_library sample_engine (1 / 4) sample_game
    sample_player armed_enemy (by decide) (by decide) (by decide)
  refine ⟨⟨by decide, by decide, by decide⟩, h.1 ⟨rfl, by decide, ?_, ?_⟩⟩
  · simp [armed_enemy]
  · simp [calculate_delay, armed_enemy, sample_engine]
    norm_num

/-! ## Spawn placement -/

/-- C21: a position accepted by `new_enemy` has passed
`is_safe_distance_from_player` and `is_safe_distance_from_enemies`; whatever
minimum distance is passed, these are true exactly when the position is more
than 200 from the player's centre, respectively from the centre of every
existing enemy, the distance being the square root of the squared distance
and the centre that of `sprite_center_point`. -/
theorem new_enemy_accepts_only_safe (eng : engine) (uninit : enemy_data) (kind : enemy_kind)
    (player : player_data) (enemies : List enemy_data) (rolls : List (Nat × Nat))
    (rotation_roll : Nat) (enemy : enemy_data)
    (h : new_enemy eng uninit kind player enemies rolls rotation_roll = some enemy) :
    is_safe_distance_from_player { x := enemy.enemy_sprite.x, y := enemy.enemy_sprite.y }
      player.player_sprite 200 = true ∧
    is_safe_distance_from_enemies { x := enemy.enemy_sprite.x, y := enemy.enemy_sprite.y }
      enemies 200 = true ∧
    (∀ (position : point_2d) (s : sprite) (min_distance : ℚ),
      is_safe_distance_from_player position s min_distance = true ↔
        200 < Real.sqrt ((point_point_distance_sq position (sprite_center_point s) : ℚ) : ℝ)) ∧
    (∀ (position : point_2d) (es : List enemy_data) (min_distance : ℚ),
      is_safe_distance_from_enemies position es min_distance = true ↔
        ∀ e ∈ es, 200 < Real.sqrt
          ((point_point_distance_sq position (sprite_center_point e.enemy_sprite) : ℚ) : ℝ)) := by
  have hsq : ∀ q : ℚ, (200 : ℝ) < Real.sqrt (q : ℝ) ↔ 200 ^ 2 < q := by
    intro q
    have h := lt_sqrt_cast 200 q (by norm_num)
    have hcast : ((200 : ℚ) : ℝ) = 200 := by norm_num
    rw [hcast] at h
    exact h
  refine ⟨?_, ?_, ?_, ?_⟩
  rotate_left 2
  · intro position s min_distance
    rw [hsq]
    exact is_safe_distance_from_player_iff position s min_distance
  · intro position es min_distance
    simp only [hsq]
    exact is_safe_distance_from_enemies_iff position es min_distance
  · unfold new_enemy at h
    cases hp : new_enemy_position player enemies rolls with
    | none => simp [hp] at h
    | some position =>
      simp only [hp, Option.some.injEq] at h
      subst h
      exact (new_enemy_position_some player enemies rolls position hp).2.1
  · unfold new_enemy at h
    cases hp : new_enemy_position player enemies rolls with
    | none => simp [hp] at h
    | some position =>
      simp only [hp, Option.some.injEq] at h
      subst h
      exact (new_enemy_position_some player enemies rolls position hp).2.2

/-- C21 at the draw `(400, 100)` against the player at `(400, 400)` and the
two enemies of `pair_game`. -/
theorem new_enemy_accepts_only_safe_witness :
    ∃ enemy,
      new_enemy sample_engine (sample_enemy .ENEMY_BOSS 0 0 0 0) .ENEMY_TYPE1 sample_player
        pair_game.enemies [(400, 100)] 90 = some enemy ∧
      is_safe_distance_from_player { x := enemy.enemy_sprite.x, y := enemy.enemy_sprite.y }
        sample_player.player_sprite 200 = true ∧
      is_safe_distance_from_enemies { x := enemy.enemy_sprite.x, y := enemy.enemy_sprite.y }
        pair_game.enemies 200 = true := by
  have hsome : (new_enemy sample_engine (sample_enemy .ENEMY_BOSS 0 0 0 0) .ENEMY_TYPE1
      sample_player pair_game.enemies [(400, 100)] 90).isSome = true := by
    simp [new_enemy, new_enemy_position, is_safe_distance_from_player,
      is_safe_distance_from_enemies, point_point_distance_sq, sprite_center_point, rnd,
      screen_width, screen_height, pair_game, sample_game, sample_player, player_attributes,
      sample_enemy, sample_sprite]
    norm_num
  obtain ⟨enemy, henemy⟩ := Option.isSome_iff_exists.mp hsome
  have h := new_enemy_accepts_only_safe sample_engine (sample_enemy .ENEMY_BOSS 0 0 0 0)
    .ENEMY_TYPE1 sample_player pair_game.enemies [(400, 100)] 90 enemy henemy
  exact ⟨enemy, henemy, h.1, h.2.1⟩

/-- The centre of a 65 by 65 sprite at the origin is `(32, 32)`, the halves
being truncated: the point `(-168, 32)` is exactly 200 from it and is not a
safe position. -/
theorem odd_sprite_centre_truncates :
    sprite_center_point { sample_sprite 0 0 with width := 65, height := 65 }
      = { x := 32, y := 32 } ∧
    is_safe_distance_from_player { x := -168, y := 32 }
      { sample_sprite 0 0 with width := 65, height := 65 } 200 = false := by
  have h : Int.tdiv 65 2 = 32 := by decide
  constructor
  · simp [sprite_center_point, sample_sprite, h]
  · simp [is_safe_distance_from_player, point_point_distance_sq, sprite_center_point,
      sample_sprite, h]
    norm_num

/-- C22, refuted as stated: nine enemies whose centres form a grid of step 267
(each more than 200 from the others) leave no candidate of the 800 by 800
window that passes `is_safe_distance_from_enemies`, so with the player far
away no sequence of draws makes the placement loop of `new_enemy` end. -/
theorem crowded_window_has_no_safe_candidate :
    (¬ ∃ x y : Nat, x < screen_width ∧ y < screen_height ∧
      is_safe_distance_from_enemies { x := x, y := y } crowded_enemies 200 = true) ∧
    (¬ ∃ rolls : List (Nat × Nat),
      (new_enemy_position far_player crowded_enemies rolls).isSome = true) := by
  have hnone : ∀ x y : Nat, x < 800 → y < 800 →
      ¬ is_safe_distance_from_enemies { x := x, y := y } crowded_enemies 200 = true := by
    intro x y hx hy hsafe
    obtain ⟨e, he, hd⟩ := crowded_window x y hx hy
    exact absurd ((is_safe_distance_from_enemies_iff _ _ _).mp hsafe e he) (not_lt.mpr hd)
  constructor
  · rintro ⟨x, y, hx, hy, hsafe⟩
    exact hnone x y hx hy hsafe
  · rintro ⟨rolls, hsome⟩
    obtain ⟨position, hp⟩ := Option.isSome_iff_exists.mp hsome
    obtain ⟨⟨roll, _, hroll⟩, _, hsafe⟩ := new_enemy_position_some _ _ _ _ hp
    subst hroll
    exact hnone (rnd screen_width roll.1) (rnd screen_height roll.2)
      (Nat.mod_lt _ (by decide)) (Nat.mod_lt _ (by decide)) hsafe

/-- C22 as amended: for every player position some candidate of the 800 by 800
window passes `is_safe_distance_from_player`, and for every player and list of
enemies the placement loop ends, and `new_enemy` returns, on every sequence of
draws that holds a candidate passing both checks. -/
theorem new_enemy_returns_on_safe_draw (eng : engine) (uninit : enemy_data) (kind : enemy_kind)
    (player : player_data) (enemies : List enemy_data) (rolls : List (Nat × Nat))
    (rotation_roll : Nat) :
    (∃ x y : Nat, x < screen_width ∧ y < screen_height ∧
      is_safe_distance_from_player { x := x, y := y } player.player_sprite 200 = true) ∧
    ((∃ roll ∈ rolls,
        is_safe_distance_from_player
            { x := rnd screen_width roll.1, y := rnd screen_height roll.2 }
            player.player_sprite 200 = true ∧
        is_safe_distance_from_enemies
            { x := rnd screen_width roll.1, y := rnd screen_height roll.2 } enemies 200 = true) →
      ∃ enemy, new_enemy eng uninit kind player enemies rolls rotation_roll = some enemy) := by
  constructor
  · have hx : ∃ x : Nat, x < 800 ∧
        399 ^ 2 ≤ ((x : ℚ) - (sprite_center_point player.player_sprite).x) ^ 2 := by
      by_cases h : (sprite_center_point player.player_sprite).x ≤ 400
      · exact ⟨799, by decide, by push_cast; nlinarith⟩
      · exact ⟨0, by decide, by push_cast; nlinarith⟩
    have hy : ∃ y : Nat, y < 800 ∧
        399 ^ 2 ≤ ((y : ℚ) - (sprite_center_point player.player_sprite).y) ^ 2 := by
      by_cases h : (sprite_center_point player.player_sprite).y ≤ 400
      · exact ⟨799, by decide, by push_cast; nlinarith⟩
      · exact ⟨0, by decide, by push_cast; nlinarith⟩
    obtain ⟨x, hx1, hx2⟩ := hx
    obtain ⟨y, hy1, hy2⟩ := hy
    refine ⟨x, y, hx1, hy1, ?_⟩
    rw [is_safe_distance_from_player_iff]
    simp only [point_point_distance_sq]
    nlinarith
  · intro h
    obtain ⟨position, hp⟩ := new_enemy_position_of_safe player enemies rolls h
    simp only [new_enemy, hp]
    exact ⟨_, rfl⟩

/-- C22 as amended, at the draw `(400, 100)` against the player at
`(400, 400)` and the two enemies of `pair_game`. -/
theorem new_enemy_returns_on_safe_draw_witness :
    ∃ enemy, new_enemy sample_engine (sample_enemy .ENEMY_BOSS 0 0 0 0) .ENEMY_TYPE2
      sample_player pair_game.enemies [(900, 900), (400, 100)] 90 = some enemy := by
  apply (new_enemy_returns_on_safe_draw sample_engine (sample_enemy .ENEMY_BOSS 0 0 0 0)
    .ENEMY_TYPE2 sample_player pair_game.enemies [(900, 900), (400, 100)] 90).2
  refine ⟨(400, 100), by simp, ?_, ?_⟩
  · simp [is_safe_distance_from_player, point_point_distance_sq, sprite_center_point, rnd,
      screen_width, screen_height, sample_player, player_attributes, sample_sprite]
    norm_num
  · simp [is_safe_distance_from_enemies, point_point_distance_sq, sprite_center_point, rnd,
      screen_width, screen_height, pair_game, sample_game, sample_enemy, sample_sprite]
    norm_num

/-! ## Map boundaries -/

/-- C23: an enemy whose position is within `[-1500, 1500]` on both axes is
still within it after `update_enemy_boundaries`; each coordinate takes the
projected value `new_x` (`new_y`) exactly when that value lies in
`[-1500, 1500]` and is otherwise unchanged. -/
theorem update_enemy_boundaries_stays_on_map (enemy : enemy_data)
    (hx0 : -1500 ≤ enemy.enemy_sprite.x) (hx1 : enemy.enemy_sprite.x ≤ 1500)
    (hy0 : -1500 ≤ enemy.enemy_sprite.y) (hy1 : enemy.enemy_sprite.y ≤ 1500) :
    (-1500 ≤ (update_enemy_boundaries enemy).enemy_sprite.x ∧
      (update_enemy_boundaries enemy).enemy_sprite.x ≤ 1500 ∧
      -1500 ≤ (update_enemy_boundaries enemy).enemy_sprite.y ∧
      (update_enemy_boundaries enemy).enemy_sprite.y ≤ 1500) ∧
    (update_enemy_boundaries enemy).enemy_sprite.x =
      (if -1500 ≤ enemy.new_x ∧ enemy.new_x ≤ 1500 then enemy.new_x
        else enemy.enemy_sprite.x) ∧
    (update_enemy_boundaries enemy).enemy_sprite.y =
      (if -1500 ≤ enemy.new_y ∧ enemy.new_y ≤ 1500 then enemy.new_y
        else enemy.enemy_sprite.y) := by
  have hx : (update_enemy_boundaries enemy).enemy_sprite.x =
      (if -1500 ≤ enemy.new_x ∧ enemy.new_x ≤ 1500 then enemy.new_x
        else enemy.enemy_sprite.x) := by
    simp only [update_enemy_boundaries, MIN_X, MAX_X, MIN_Y, MAX_Y, sprite_set_x, sprite_set_y,
      sprite_set_rotation]
    split_ifs <;> simp_all
  have hy : (update_enemy_boundaries enemy).enemy_sprite.y =
      (if -1500 ≤ enemy.new_y ∧ enemy.new_y ≤ 1500 then enemy.new_y
        else enemy.enemy_sprite.y) := by
    simp only [update_enemy_boundaries, MIN_X, MAX_X, MIN_Y, MAX_Y, sprite_set_x, sprite_set_y,
      sprite_set_rotation]
    split_ifs <;> simp_all
  refine ⟨?_, hx, hy⟩
  rw [hx, hy]
  refine ⟨?_, ?_, ?_, ?_⟩ <;> split_ifs with h <;> first | exact h.1 | exact h.2 | assumption

/-- C23 at an enemy at `(1400, 100)` projected to `(1501, 120)`: it keeps x
1400 and takes y 120. -/
theorem update_enemy_boundaries_stays_on_map_witness :
    (update_enemy_boundaries wall_enemy).enemy_sprite.x = 1400 ∧
    (update_enemy_boundaries wall_enemy).enemy_sprite.y = 120 := by
  have h := update_enemy_boundaries_stays_on_map wall_enemy
    (by norm_num [wall_enemy, sample_enemy, sample_sprite])
    (by norm_num [wall_enemy, sample_enemy, sample_sprite])
    (by norm_num [wall_enemy, sample_enemy, sample_sprite])
    (by norm_num [wall_enemy, sample_enemy, sample_sprite])
  constructor
  · rw [h.2.1]
    simp [wall_enemy, sample_enemy, sample_sprite]
    norm_num
  · rw [h.2.2]
    simp [wall_enemy, sample_enemy, sample_sprite]
    norm_num

/-- C24, evaluated on the code: each axis adds 180 to the rotation on its own.
An enemy heading at 45 degrees whose projected position `(1501, 1501)` is
outside on both axes ends at rotation 45 + 360, which is not 180 away from 45
modulo 360, and stays at `(1499, 1499)`; with exactly one axis outside the
rotation grows by exactly 180. -/
theorem corner_turns_full_circle :
    (¬ (-1500 ≤ corner_enemy.new_x ∧ corner_enemy.new_x ≤ 1500) ∧
      ¬ (-1500 ≤ corner_enemy.new_y ∧ corner_enemy.new_y ≤ 1500)) ∧
    corner_enemy.enemy_sprite.rotation = 45 ∧
    (update_enemy_boundaries corner_enemy).enemy_sprite.rotation = 45 + 360 ∧
    (¬ ∃ k : Int, (update_enemy_boundaries corner_enemy).enemy_sprite.rotation
        - corner_enemy.enemy_sprite.rotation = 180 + 360 * (k : ℚ)) ∧
    ((update_enemy_boundaries corner_enemy).enemy_sprite.x = 1499 ∧
      (update_enemy_boundaries corner_enemy).enemy_sprite.y = 1499) ∧
    (∀ enemy : enemy_data,
      ((¬ (-1500 ≤ enemy.new_x ∧ enemy.new_x ≤ 1500)) ∧ (-1500 ≤ enemy.new_y ∧ enemy.new_y ≤ 1500)) ∨
        ((-1500 ≤ enemy.new_x ∧ enemy.new_x ≤ 1500) ∧ ¬ (-1500 ≤ enemy.new_y ∧ enemy.new_y ≤ 1500)) →
      (update_enemy_boundaries enemy).enemy_sprite.rotation = enemy.enemy_sprite.rotation + 180) := by
  have hrot : (update_enemy_boundaries corner_enemy).enemy_sprite.rotation = 45 + 360 := by
    simp [update_enemy_boundaries, MIN_X, MAX_X, MIN_Y, MAX_Y, sprite_set_rotation, corner_enemy,
      sample_enemy, sample_sprite]
    norm_num
  refine ⟨?_, rfl, hrot, ?_, ?_, ?_⟩
  · simp [corner_enemy, sample_enemy]
    norm_num
  · rintro ⟨k, hk⟩
    rw [hrot] at hk
    have h1 : corner_enemy.enemy_sprite.rotation = 45 := rfl
    rw [h1] at hk
    have h2 : (2 * k : Int) = 1 := by
      have : (2 * (k : ℚ)) = 1 := by linarith
      exact_mod_cast this
    omega
  · simp [update_enemy_boundaries, MIN_X, MAX_X, MIN_Y, MAX_Y, sprite_set_rotation, corner_enemy,
      sample_enemy, sample_sprite]
    norm_num
  · intro enemy h
    exact update_enemy_boundaries_one_axis enemy h

/-! ## Game time -/

/-- C25: with `last_second_tick` an earlier reading of the timer, after
`update_game_time` the state is `GAME_OVER` whenever `time_remaining` is at
most 0 (and is otherwise unchanged); `time_remaining` drops by exactly 1 and
`last_second_tick` becomes the current tick when at least 1000 ticks have
elapsed, and both are unchanged otherwise. -/
theorem update_game_time_spec (eng : engine) (game : game_data)
    (hlast : game.last_second_tick ≤ eng.timer_ticks) (hnow : eng.timer_ticks < 2 ^ 32) :
    ((update_game_time eng game).player.time_remaining ≤ 0 →
      (update_game_time eng game).state = game_state.GAME_OVER) ∧
    (0 < (update_game_time eng game).player.time_remaining →
      (update_game_time eng game).state = game.state) ∧
    (1000 ≤ eng.timer_ticks - game.last_second_tick →
      (update_game_time eng game).player.time_remaining = game.player.time_remaining - 1 ∧
      (update_game_time eng game).last_second_tick = eng.timer_ticks) ∧
    (eng.timer_ticks - game.last_second_tick < 1000 →
      (update_game_time eng game).player.time_remaining = game.player.time_remaining ∧
      (update_game_time eng game).last_second_tick = game.last_second_tick) := by
  have hsub := unsigned_sub_of_le eng.timer_ticks game.last_second_tick hlast hnow
  simp only [update_game_time, hsub, ge_iff_le]
  refine ⟨?_, ?_, ?_, ?_⟩
  · intro h
    split_ifs at h ⊢ <;> simp_all
  · intro h
    split_ifs at h ⊢ <;> simp_all <;> omega
  · intro h
    split_ifs <;> simp_all
  · intro h
    have h' : ¬ 1000 ≤ eng.timer_ticks - game.last_second_tick := by omega
    split_ifs <;> simp_all

/-- C25 at one second left, 1000 ticks after the last second tick: the time
runs out and the game is over. -/
theorem update_game_time_spec_witness :
    last_second_game.last_second_tick ≤ sample_engine.timer_ticks ∧
    sample_engine.timer_ticks < 2 ^ 32 ∧
    last_second_game.state = game_state.IN_PROGRESS ∧
    (update_game_time sample_engine last_second_game).player.time_remaining = 0 ∧
    (update_game_time sample_engine last_second_game).last_second_tick = 5000 ∧
    (update_game_time sample_engine last_second_game).state = game_state.GAME_OVER := by
  have h := update_game_time_spec sample_engine last_second_game (by decide) (by decide)
  have h3 := h.2.2.1 (by decide)
  have ht : (update_game_time sample_engine last_second_game).player.time_remaining = 0 := by
    rw [h3.1]; rfl
  exact ⟨by decide, by decide, rfl, ht, h3.2, h.1 (le_of_eq ht)⟩

/-! ## The enemy lookup of the enemy-projectile pass -/

/-- C26, evaluated on the code: with no shield, one enemy and two enemy
projectiles on the player, the pass handles the hit of the projectile at index
1 and reads `enemies[1]`, which is out of range; the modelled pass has no
result there. -/
theorem enemy_lookup_out_of_range :
    outnumbered_game.player.shield_pct = 0 ∧
    outnumbered_game.enemies.length = 1 ∧
    (outnumbered_game.projectiles[1]?).map
      (hits_player (sample_library.sprite_collision_circle outnumbered_game.player.player_sprite))
      = some true ∧
    outnumbered_game.enemies[1]? = none ∧
    handle_projectile_collision outnumbered_game 1 = none ∧
    check_enemy_projectile_collisions sample_library outnumbered_game = none := by
  have hhit : circle_collision (sample_projectile 432 432 1).shape
      (sample_library.sprite_collision_circle outnumbered_game.player.player_sprite) = true := by
    simp [circle_collision, sample_library, sprite_center_point, sample_projectile,
      outnumbered_game, sample_game, sample_player, player_attributes, sample_sprite]
    norm_num
  have hhandle : handle_projectile_collision outnumbered_game 1 = none := by
    simp [handle_projectile_collision, outnumbered_game, sample_game, sample_player,
      player_attributes]
  refine ⟨rfl, rfl, ?_, rfl, hhandle, ?_⟩
  · simp only [outnumbered_game, sample_game, List.getElem?_cons_succ, List.getElem?_cons_zero,
      Option.map_some', hits_player, Option.some.injEq, Bool.and_eq_true, decide_eq_true_eq]
    exact ⟨rfl, hhit⟩
  · have hp : outnumbered_game.projectiles[1]? = some (sample_projectile 432 432 1) := rfl
    have hlen : outnumbered_game.projectiles.length = 2 := rfl
    have ho : (sample_projectile 432 432 1).owner = 1 := rfl
    simp only [check_enemy_projectile_collisions, hlen, check_enemy_projectile_collisions_loop,
      hp, ho, hhit, and_self, if_true, hhandle]

/-! ## Kinds without a snapshot -/

/-- C27: after `end_ultimate_kill_streak` every enemy whose kind had no entry
in `original_damage_values` has damage value 0, and the map holds the entry 0
for that kind. -/
theorem end_ultimate_kill_streak_absent_kind (eng : engine) (game : game_data)
    (enemy' : enemy_data) (hmem : enemy' ∈ (end_ultimate_kill_streak eng game).enemies)
    (habsent : game.original_damage_values enemy'.kind = none) :
    enemy'.damage_value = 0 ∧
    (end_ultimate_kill_streak eng game).original_damage_values enemy'.kind = some 0 := by
  simp only [end_ultimate_kill_streak, update_player_attributes, end_loop_fst,
    List.mem_map] at hmem
  obtain ⟨e, he, rfl⟩ := hmem
  simp only at habsent ⊢
  constructor
  · rw [habsent]; rfl
  · simp only [end_ultimate_kill_streak, update_player_attributes]
    exact end_loop_snd_of_absent game.enemies game.original_damage_values e.kind habsent
      ⟨e, he, rfl⟩

/-- C27 at an enemy of a third kind spawned during the buff of `pair_game`:
after the end it has damage value 0 and its kind has the entry 0. -/
theorem end_ultimate_kill_streak_absent_kind_witness :
    stranger_game.original_damage_values .ENEMY_TYPE3 = none ∧
    (end_ultimate_kill_streak late_engine stranger_game).enemies.map
      (fun e => (e.kind, e.damage_value)) =
      [(.ENEMY_TYPE1, (0.05 : ℚ)), (.ENEMY_TYPE2, (0.3 : ℚ)), (.ENEMY_TYPE3, (0 : ℚ))] ∧
    (end_ultimate_kill_streak late_engine stranger_game).original_damage_values .ENEMY_TYPE3
      = some 0 := by
  have habsent : stranger_game.original_damage_values .ENEMY_TYPE3 = none := by
    simp [stranger_game, buffed_pair_game, activate_ultimate_kill_streak,
      update_player_attributes, activate_loop, damage_map.assign, pair_game, sample_game,
      sample_enemy]
  have hlist : (end_ultimate_kill_streak late_engine stranger_game).enemies.map
      (fun e => (e.kind, e.damage_value)) =
      [(.ENEMY_TYPE1, (0.05 : ℚ)), (.ENEMY_TYPE2, (0.3 : ℚ)), (.ENEMY_TYPE3, (0 : ℚ))] := by
    simp [end_ultimate_kill_streak, update_player_attributes, end_loop, damage_map.index,
      stranger_game, buffed_pair_game, activate_ultimate_kill_streak, activate_loop,
      damage_map.assign, pair_game, sample_game, sample_enemy]
  have hmem : { sample_enemy .ENEMY_TYPE3 100 700 150 0.10 with damage_value := 0 } ∈
      (end_ultimate_kill_streak late_engine stranger_game).enemies := by
    simp [end_ultimate_kill_streak, update_player_attributes, end_loop, damage_map.index,
      stranger_game, buffed_pair_game, activate_ultimate_kill_streak, activate_loop,
      damage_map.assign, pair_game, sample_game, sample_enemy]
  exact ⟨habsent, hlist,
    (end_ultimate_kill_streak_absent_kind late_engine stranger_game _ hmem habsent).2⟩

/-! ## Speed near the player -/

/-- C28: `check_player_projectile_collisions` always returns, so it never
indexes `game.projectiles` or `game.enemies` out of range; the enemies
removed, the projectiles removed, the explosions added and the increase of
`kill_count` are one and the same number `k`; the projectiles left are a
sublist of the original ones that still holds every projectile not owned by
the player, so every removed projectile has owner 0. -/
theorem check_player_projectile_collisions_spec (lib : library) (eng : engine)
    (game : game_data) :
    ∃ (game' : game_data) (k : Nat),
      check_player_projectile_collisions lib eng game = some game' ∧
      game'.enemies.length + k = game.enemies.length ∧
      game'.projectiles.length + k = game.projectiles.length ∧
      game'.explosions.length = game.explosions.length + k ∧
      game'.player.kill_count = game.player.kill_count + k ∧
      game'.projectiles.Sublist game.projectiles ∧
      game'.projectiles.filter (fun p => decide (p.owner ≠ 0)) =
        game.projectiles.filter (fun p => decide (p.owner ≠ 0)) :=
  check_player_projectile_loop_effect lib eng game.projectiles.length game (Nat.le_refl _)

/-! ## The Ultimate is a one-shot -/

/-- C29: along every sequence of frame steps from a state with `kill_count = 0`
and the kill streak inactive, `activate_ultimate_kill_streak` has run at most
once, and it has run exactly when `kill_count` has reached 10; no step lowers
`kill_count`, and a step runs the activation only as the kill that takes
`kill_count` from 9 to 10, no activation having run before; once the buff
has run and the flag is clear again, the flag stays clear and no activation
runs on any later sequence of steps.  The counting variant of
`handle_enemy_collision` computes the same game as the original. -/
theorem ultimate_is_one_shot (game0 game : game_data) (n : Nat)
    (hkill : game0.player.kill_count = 0) (hflag : game0.is_kill_streak_active = false)
    (hrun : frames game0 n game) :
    n ≤ 1 ∧
    0 ≤ game.player.kill_count ∧
    (n = 1 ↔ 10 ≤ game.player.kill_count) ∧
    (game.is_kill_streak_active = true → n = 1) ∧
    (∀ (k : Nat) (game' : game_data), frame_step game k game' →
      game.player.kill_count ≤ game'.player.kill_count ∧
      (1 ≤ k → n = 0 ∧ game.player.kill_count = 9 ∧ game'.player.kill_count = 10)) ∧
    (n = 1 → game.is_kill_streak_active = false →
      ∀ (m : Nat) (later : game_data), frames game m later →
        later.is_kill_streak_active = false ∧ m = 0) ∧
    (∀ (eng : engine) (g : game_data) (j i : Nat),
      (handle_enemy_collision_counted eng g j i).map Prod.fst =
        handle_enemy_collision eng g j i) := by
  have hinv : 0 ≤ game.player.kill_count ∧
      (game.player.kill_count < 10 → game.is_kill_streak_active = false ∧ n = 0) ∧
      (10 ≤ game.player.kill_count → n = 1) := by
    induction hrun with
    | nil => exact ⟨by omega, fun _ => ⟨hflag, rfl⟩, fun h => by omega⟩
    | cons game1 game2 n k _ hstep ih =>
      obtain ⟨i1, i2, i3⟩ := ih
      rcases frame_step_effect game1 game2 k hstep with ⟨h1, h2, h3⟩ | ⟨h1, h2, h3, h4⟩ |
        ⟨h1, h2, h3, h4⟩
      · refine ⟨by omega, fun hlt => ?_, fun hge => by have := i3 (by omega); omega⟩
        obtain ⟨j1, j2⟩ := i2 (by omega)
        refine ⟨?_, by omega⟩
        rcases h2 with h2 | h2
        · rw [h2]; exact j1
        · exact h2
      · refine ⟨by omega, fun hlt => ?_, fun hge => by have := i3 (by omega); omega⟩
        obtain ⟨j1, j2⟩ := i2 (by omega)
        exact ⟨by rw [h3]; exact j1, by omega⟩
      · obtain ⟨_, j2⟩ := i2 (by omega)
        exact ⟨by omega, fun hlt => by omega, fun _ => by omega⟩
  obtain ⟨i1, i2, i3⟩ := hinv
  have hn : n = 1 ↔ 10 ≤ game.player.kill_count := by
    constructor
    · intro h1
      by_contra hlt
      have := (i2 (by omega)).2
      omega
    · exact i3
  refine ⟨?_, i1, hn, ?_, ?_, ?_, handle_enemy_collision_counted_fst⟩
  · by_cases h : game.player.kill_count < 10
    · have := (i2 h).2; omega
    · have := i3 (by omega); omega
  · intro hactive
    by_contra hne
    have hlt : game.player.kill_count < 10 := by
      by_contra hge
      exact hne (i3 (by omega))
    rw [(i2 hlt).1] at hactive
    cases hactive
  · intro k game' hstep
    rcases frame_step_effect game game' k hstep with ⟨h1, _, h3⟩ | ⟨h1, _, _, h4⟩ |
      ⟨h1, h2, _, h4⟩
    · exact ⟨by omega, fun hk => by omega⟩
    · exact ⟨by omega, fun hk => by omega⟩
    · exact ⟨by omega, fun _ => ⟨(i2 (by omega)).2, h1, h2⟩⟩
  · intro h1 hclear m later hlater
    have h := frames_after_end game later m hlater (hn.mp h1) hclear
    exact ⟨h.2.1, h.2.2⟩

/-- C29 at the first kill of a game: the run of one hit from `kill_game` has
made no activation and has not lowered `kill_count`. -/
theorem ultimate_is_one_shot_witness :
    kill_game.player.kill_count = 0 ∧ kill_game.is_kill_streak_active = false ∧
    ∃ (game : game_data) (n : Nat),
      frame_step kill_game n game ∧ frames kill_game (0 + n) game ∧ 0 + n ≤ 1 ∧
      0 ≤ game.player.kill_count := by
  have hsome : (handle_enemy_collision_counted sample_engine kill_game 0 0).isSome = true := by
    simp [handle_enemy_collision_counted, kill_game, sample_game, sample_enemy, sample_player,
      player_attributes, add_explosion, play_kill_streak_sound_counted, killStreaks]
  obtain ⟨⟨game, n⟩, hhit⟩ := Option.isSome_iff_exists.mp hsome
  have hstep : frame_step kill_game n game := frame_step.hit sample_engine _ _ 0 0 n hhit
  have hrun : frames kill_game (0 + n) game :=
    frames.cons _ _ _ _ _ (frames.nil kill_game) hstep
  have h := ultimate_is_one_shot kill_game game (0 + n) rfl rfl hrun
  exact ⟨rfl, rfl, game, n, hstep, hrun, h.1, h.2.1⟩

end LostInSpace
